import Mathlib

/-!
# Power and wake coordination engine of c6-touch-starter

A shallow embedding of `main/power/display_power.c`, `main/power/power_manager.c`
and the wake-on-motion part of `components/esp_bsp/bsp_qmi8658.c`.

Module-level C state (`static ... ctx`) becomes an explicit record that every
operation takes and returns.  Unsigned 8-bit values are natural numbers that are
reduced modulo 256 wherever C converts to `uint8_t`.  What the FreeRTOS kernel,
the clock and the I2C bus decide (whether a lock is obtained, whether a timer
starts, the current time, whether a transfer fails) is passed in as an argument.
-/

set_option linter.unusedVariables false

namespace C6Touch

/-! ## Error codes (`esp_err.h`) -/

/-- The ESP-IDF result code; `0` is success. -/
abbrev esp_err_t := Int

def ESP_OK : esp_err_t := 0
def ESP_FAIL : esp_err_t := -1
def ESP_ERR_NO_MEM : esp_err_t := 0x101
def ESP_ERR_INVALID_ARG : esp_err_t := 0x102
def ESP_ERR_INVALID_STATE : esp_err_t := 0x103
def ESP_ERR_TIMEOUT : esp_err_t := 0x107

/-- Conversion of a C `int` value to `uint8_t`. -/
def to_u8 (x : Int) : Nat := (x % 256).toNat

/-- Conversion of a C integer value to `uint32_t`. -/
def to_u32 (x : Int) : Nat := (x % 4294967296).toNat

/-! ## `app_config.h` -/

def SCREEN_DIM_START_MS : Nat := 10 * 1000
def SCREEN_OFF_TIMEOUT_MS : Nat := 20 * 1000
def FADE_STEP_SIZE : Nat := 4

/-! ## `display_power.c` -/

/-- The `display_context_t` record of `display_power.c`.  `fade_timer` records
whether the timer handle is non-NULL.  The last two fields are not C fields: they
record what the code did to the step timer and to the backlight. -/
structure display_context_t where
  current_brightness : Nat
  target_brightness : Nat
  fade_enabled : Bool
  fade_active : Bool
  fade_timer : Bool
  initialized : Bool
  /-- whether the FreeRTOS step timer is running -/
  timer_running : Bool
  /-- every value handed to `bsp_display_set_brightness`, oldest first -/
  backlight : List Nat
deriving DecidableEq, Repr

/-- The zero-initialised `static display_context_t ctx = {0}`. -/
def display_ctx_zero : display_context_t :=
  { current_brightness := 0, target_brightness := 0, fade_enabled := false,
    fade_active := false, fade_timer := false, initialized := false,
    timer_running := false, backlight := [] }

/-- `display_power_init`; `timer_create_ok` says whether `xTimerCreate` returns a
handle. -/
def display_power_init (ctx : display_context_t) (initial_brightness : Nat)
    (enable_fade : Bool) (timer_create_ok : Bool) : esp_err_t × display_context_t :=
  if ctx.initialized then (ESP_OK, ctx)
  else
    let initial_brightness := initial_brightness % 256
    let initial_brightness := if initial_brightness > 100 then 100 else initial_brightness
    let ctx := { ctx with current_brightness := initial_brightness,
                          target_brightness := initial_brightness,
                          fade_enabled := enable_fade,
                          fade_active := false }
    if enable_fade && !timer_create_ok then
      (ESP_ERR_NO_MEM, { ctx with fade_timer := false })
    else
      let ctx := if enable_fade then { ctx with fade_timer := true } else ctx
      (ESP_OK, { ctx with backlight := ctx.backlight ++ [initial_brightness],
                          initialized := true })

/-- `display_power_set_brightness`; `timer_start_ok` says whether `xTimerStart`
returns `pdPASS` when the function gets that far. -/
def display_power_set_brightness (ctx : display_context_t) (brightness : Nat)
    (animate : Bool) (timer_start_ok : Bool) : esp_err_t × display_context_t :=
  if !ctx.initialized then (ESP_ERR_INVALID_STATE, ctx)
  else
    let brightness := brightness % 256
    let brightness := if brightness > 100 then 100 else brightness
    let ctx := { ctx with target_brightness := brightness }
    if !animate || !ctx.fade_enabled || !ctx.fade_timer then
      (ESP_OK, { ctx with current_brightness := brightness,
                          fade_active := false,
                          backlight := ctx.backlight ++ [brightness] })
    else if ctx.current_brightness != ctx.target_brightness then
      let ctx := { ctx with fade_active := true }
      if !timer_start_ok then
        (ESP_FAIL, { ctx with current_brightness := brightness,
                              fade_active := false,
                              backlight := ctx.backlight ++ [brightness] })
      else
        (ESP_OK, { ctx with timer_running := true })
    else (ESP_OK, ctx)

def display_power_get_brightness (ctx : display_context_t) : Nat :=
  ctx.current_brightness

def display_power_is_fading (ctx : display_context_t) : Bool :=
  ctx.fade_active

/-- `display_power_stop_fade`. -/
def display_power_stop_fade (ctx : display_context_t) : display_context_t :=
  if ctx.fade_timer && ctx.fade_active then
    { ctx with timer_running := false, fade_active := false }
  else ctx

/-- `fade_timer_callback`: one step of the fade.  The comparisons are made in
`int` as C promotes the operands; the stores convert back to `uint8_t`. -/
def fade_timer_callback (ctx : display_context_t) : display_context_t :=
  if !ctx.fade_active || ctx.current_brightness == ctx.target_brightness then
    { ctx with fade_active := false, timer_running := false }
  else
    let current :=
      if ctx.current_brightness < ctx.target_brightness then
        let step := FADE_STEP_SIZE
        let step :=
          if ctx.current_brightness + step > ctx.target_brightness then
            to_u8 ((ctx.target_brightness : Int) - (ctx.current_brightness : Int))
          else step
        to_u8 ((ctx.current_brightness : Int) + (step : Int))
      else
        let step := FADE_STEP_SIZE
        if ctx.current_brightness < step
            || (ctx.current_brightness : Int) - (step : Int) < (ctx.target_brightness : Int) then
          ctx.target_brightness
        else
          to_u8 ((ctx.current_brightness : Int) - (step : Int))
    { ctx with current_brightness := current, backlight := ctx.backlight ++ [current] }

/-- `n` consecutive expiries of the step timer. -/
def fade_steps : Nat → display_context_t → display_context_t
  | 0, ctx => ctx
  | n + 1, ctx => fade_steps n (fade_timer_callback ctx)

/-- The calls a client or the timer service can make on the fade controller. -/
inductive display_op where
  | set_brightness (brightness : Nat) (animate : Bool) (timer_start_ok : Bool)
  | fade_step
  | stop_fade
deriving DecidableEq, Repr

def display_apply (ctx : display_context_t) : display_op → display_context_t
  | .set_brightness b a ok => (display_power_set_brightness ctx b a ok).2
  | .fade_step => fade_timer_callback ctx
  | .stop_fade => display_power_stop_fade ctx

def display_run (ctx : display_context_t) (ops : List display_op) : display_context_t :=
  ops.foldl display_apply ctx

/-- Position of a linear ramp that starts at `c`, heads for `t` in steps of
`FADE_STEP_SIZE` and stops at `t`, after `k` steps. -/
def ramp (c t k : Nat) : Nat :=
  if c ≤ t then min (c + FADE_STEP_SIZE * k) t else max (c - FADE_STEP_SIZE * k) t

/-- Number of steps of size `FADE_STEP_SIZE` needed to cover the distance between
`c` and `t`: the distance divided by the step size, rounded up. -/
def fade_step_count (c t : Nat) : Nat :=
  (((t : Int) - (c : Int)).natAbs + (FADE_STEP_SIZE - 1)) / FADE_STEP_SIZE

/-! ## `power_manager.h` / `power_manager.c` -/

inductive power_state_t where
  | POWER_STATE_ACTIVE
  | POWER_STATE_DIM
  | POWER_STATE_OFF
  | POWER_STATE_SLEEP
deriving DecidableEq, Repr

inductive wake_source_t where
  | WAKE_SOURCE_TOUCH
  | WAKE_SOURCE_BUTTON
  | WAKE_SOURCE_MOTION
  | WAKE_SOURCE_WOM
  | WAKE_SOURCE_TIMER
  | WAKE_SOURCE_API
deriving DecidableEq, Repr

open power_state_t wake_source_t

structure power_config_t where
  dim_timeout_ms : Nat
  off_timeout_ms : Nat
  sleep_timeout_ms : Nat
  dim_brightness : Nat
  user_brightness : Nat
  enable_fade : Bool
  fade_duration_ms : Nat
deriving DecidableEq, Repr

/-- A `power_state_cb_t` function pointer, as its address; `0` is `NULL`. -/
abbrev power_state_cb_t := Nat

def MAX_CALLBACKS : Nat := 5

/-- The `power_context_t` record of `power_manager.c`.  `state_mutex` and
`state_timer` record whether the handle is non-NULL; `callbacks` is the array of
`MAX_CALLBACKS` slots. -/
structure power_context_t where
  current_state : power_state_t
  previous_state : power_state_t
  last_activity_us : Int
  config : power_config_t
  state_mutex : Bool
  state_timer : Bool
  callbacks : List power_state_cb_t
  callback_count : Nat
  initialized : Bool
deriving DecidableEq, Repr

/-- The zero-initialised `static power_context_t ctx = {0}`. -/
def power_ctx_zero : power_context_t :=
  { current_state := POWER_STATE_ACTIVE, previous_state := POWER_STATE_ACTIVE,
    last_activity_us := 0,
    config := { dim_timeout_ms := 0, off_timeout_ms := 0, sleep_timeout_ms := 0,
                dim_brightness := 0, user_brightness := 0, enable_fade := false,
                fade_duration_ms := 0 },
    state_mutex := false, state_timer := false,
    callbacks := List.replicate MAX_CALLBACKS 0, callback_count := 0,
    initialized := false }

/-- One invocation of a registered callback: `callback(old_state, new_state)`. -/
structure callback_call where
  callback : power_state_cb_t
  old_state : power_state_t
  new_state : power_state_t
deriving DecidableEq, Repr

/-- One call `display_power_set_brightness(brightness, animate)` made by the power
manager. -/
structure brightness_directive where
  brightness : Nat
  animate : Bool
deriving DecidableEq, Repr

/-- One call into the sleep API that arms a wake channel:
`esp_sleep_enable_timer_wakeup(time_in_us)`, `gpio_wakeup_enable(gpio_num, level)`
(`high_level` for `GPIO_INTR_HIGH_LEVEL`), `esp_sleep_enable_gpio_wakeup()`,
`esp_sleep_enable_uart_wakeup(uart_num)`. -/
inductive wake_arm where
  | timer_wakeup (time_in_us : Nat)
  | gpio_wakeup_enable (gpio_num : Nat) (high_level : Bool)
  | gpio_wakeup
  | uart_wakeup (uart_num : Nat)
deriving DecidableEq, Repr

/-- The two module states of the power subsystem together with the calls made
into registered callbacks (oldest first), the `static uint8_t log_counter` of
`power_timer_callback`, the calls the power manager made to
`display_power_set_brightness` (oldest first) and the wake channels it armed
(oldest first). -/
structure power_system where
  pm : power_context_t
  display : display_context_t
  calls : List callback_call
  log_counter : Nat
  directives : List brightness_directive := []
  wake_arms : List wake_arm := []
deriving DecidableEq, Repr

def power_system_zero : power_system :=
  { pm := power_ctx_zero, display := display_ctx_zero, calls := [], log_counter := 0 }

/-- What the kernel decides during `power_manager_init`. -/
structure init_env where
  mutex_create_ok : Bool
  state_timer_create_ok : Bool
  fade_timer_create_ok : Bool
  state_timer_start_ok : Bool
deriving DecidableEq, Repr

/-- `display_power_deinit`. -/
def display_power_deinit (ctx : display_context_t) : display_context_t :=
  if !ctx.initialized then ctx
  else { display_ctx_zero with backlight := ctx.backlight }

/-- `power_manager_init` with a non-NULL `config`; `now` is the value of
`esp_timer_get_time()`. -/
def power_manager_init (s : power_system) (config : power_config_t) (now : Int)
    (env : init_env) : esp_err_t × power_system :=
  if s.pm.initialized then (ESP_OK, s)
  else
    let pm := { s.pm with config := config,
                          current_state := POWER_STATE_ACTIVE,
                          previous_state := POWER_STATE_ACTIVE,
                          last_activity_us := now,
                          callback_count := 0 }
    if !env.mutex_create_ok then
      (ESP_ERR_NO_MEM, { s with pm := { pm with state_mutex := false } })
    else
      let pm := { pm with state_mutex := true }
      if !env.state_timer_create_ok then
        (ESP_ERR_NO_MEM, { s with pm := { pm with state_timer := false } })
      else
        let pm := { pm with state_timer := true }
        let (ret, display) :=
          display_power_init s.display config.user_brightness config.enable_fade
            env.fade_timer_create_ok
        if ret != ESP_OK then
          (ret, { s with pm := pm, display := display })
        else if !env.state_timer_start_ok then
          (ESP_FAIL, { s with pm := pm, display := display_power_deinit display })
        else
          (ESP_OK, { s with pm := { pm with initialized := true }, display := display })

/-- `power_manager_init(NULL)`. -/
def power_manager_init_null (s : power_system) : esp_err_t × power_system :=
  (ESP_ERR_INVALID_ARG, s)

/-- `power_manager_register_state_callback`; `lock_ok` says whether
`xSemaphoreTake` obtains the mutex within its 100 ms. -/
def power_manager_register_state_callback (ctx : power_context_t)
    (callback : power_state_cb_t) (lock_ok : Bool) : esp_err_t × power_context_t :=
  if !ctx.initialized then (ESP_ERR_INVALID_STATE, ctx)
  else if callback == 0 then (ESP_ERR_INVALID_ARG, ctx)
  else if !lock_ok then (ESP_ERR_TIMEOUT, ctx)
  else if ctx.callback_count >= MAX_CALLBACKS then (ESP_ERR_NO_MEM, ctx)
  else
    (ESP_OK, { ctx with callbacks := ctx.callbacks.set ctx.callback_count callback,
                        callback_count := (ctx.callback_count + 1) % 256 })

/-- The notification loop of `transition_to_state`: slots `0 .. callback_count-1`
in order, skipping NULL slots. -/
def notify_callbacks (ctx : power_context_t) (old_state new_state : power_state_t) :
    List callback_call :=
  (List.range ctx.callback_count).filterMap fun i =>
    let cb := ctx.callbacks.getD i 0
    if cb != 0 then some { callback := cb, old_state := old_state, new_state := new_state }
    else none

/-- A call of `display_power_set_brightness` from the power manager: the display
module runs it on its own state, and the call is recorded in `directives`. -/
def call_display_power_set_brightness (s : power_system) (brightness : Nat) (animate : Bool)
    (timer_start_ok : Bool) : esp_err_t × power_system :=
  let r := display_power_set_brightness s.display brightness animate timer_start_ok
  (r.1, { s with display := r.2,
                 directives := s.directives ++ [{ brightness := brightness, animate := animate }] })

/-- `transition_to_state`; `lock_ok` says whether the mutex is obtained,
`fade_start_ok` whether the fade timer starts if the display asks for it. -/
def transition_to_state (s : power_system) (new_state : power_state_t)
    (lock_ok : Bool) (fade_start_ok : Bool) : esp_err_t × power_system :=
  if !lock_ok then (ESP_ERR_TIMEOUT, s)
  else
    let old_state := s.pm.current_state
    if old_state == new_state then (ESP_OK, s)
    else
      let pm := { s.pm with previous_state := old_state, current_state := new_state }
      let s := { s with pm := pm }
      let r :=
        match new_state with
        | POWER_STATE_ACTIVE =>
            call_display_power_set_brightness s pm.config.user_brightness
              pm.config.enable_fade fade_start_ok
        | POWER_STATE_DIM =>
            call_display_power_set_brightness s pm.config.dim_brightness
              pm.config.enable_fade fade_start_ok
        | POWER_STATE_OFF =>
            call_display_power_set_brightness s 0 pm.config.enable_fade fade_start_ok
        | POWER_STATE_SLEEP =>
            call_display_power_set_brightness s 0 false fade_start_ok
      (r.1, { r.2 with calls := r.2.calls ++ notify_callbacks pm old_state new_state })

/-- `power_manager_reset_activity`; `now` is the value of `esp_timer_get_time()`. -/
def power_manager_reset_activity (s : power_system) (source : wake_source_t) (now : Int)
    (lock_ok : Bool) (fade_start_ok : Bool) : power_system :=
  if !s.pm.initialized then s
  else
    let s := { s with pm := { s.pm with last_activity_us := now } }
    if s.pm.current_state != POWER_STATE_ACTIVE then
      (transition_to_state s POWER_STATE_ACTIVE lock_ok fade_start_ok).2
    else s

def power_manager_get_state (ctx : power_context_t) : power_state_t :=
  ctx.current_state

/-- `power_manager_get_idle_time_ms`: the 64-bit difference divided by 1000
(C division, rounding toward zero) and converted to `uint32_t`. -/
def power_manager_get_idle_time_ms (ctx : power_context_t) (now : Int) : Nat :=
  if !ctx.initialized then 0
  else to_u32 ((now - ctx.last_activity_us).tdiv 1000)

/-- `power_manager_force_state`. -/
def power_manager_force_state (s : power_system) (state : power_state_t)
    (lock_ok : Bool) (fade_start_ok : Bool) : esp_err_t × power_system :=
  if !s.pm.initialized then (ESP_ERR_INVALID_STATE, s)
  else transition_to_state s state lock_ok fade_start_ok

/-- `power_timer_callback`: one tick of the periodic evaluator. -/
def power_timer_callback (s : power_system) (now : Int)
    (lock_ok : Bool) (fade_start_ok : Bool) : power_system :=
  if !s.pm.initialized then s
  else
    let idle_time_ms := power_manager_get_idle_time_ms s.pm now
    let target_state :=
      if idle_time_ms >= s.pm.config.off_timeout_ms then POWER_STATE_OFF
      else if idle_time_ms >= s.pm.config.dim_timeout_ms then POWER_STATE_DIM
      else POWER_STATE_ACTIVE
    let s :=
      if target_state != s.pm.current_state then
        (transition_to_state s target_state lock_ok fade_start_ok).2
      else s
    let log_counter := (s.log_counter + 1) % 256
    { s with log_counter := if log_counter >= 10 then 0 else log_counter }

/-- Registration of a list of callbacks one after the other, each with its lock
outcome; returns the result codes in call order and the final context. -/
def register_all : power_context_t → List (power_state_cb_t × Bool) →
    List esp_err_t × power_context_t
  | ctx, [] => ([], ctx)
  | ctx, (cb, lock_ok) :: rest =>
      let r := power_manager_register_state_callback ctx cb lock_ok
      let rs := register_all r.2 rest
      (r.1 :: rs.1, rs.2)

/-! ## `bsp_qmi8658.c`: the register bus and the WoM interrupt switch -/

/-- One transfer on the I2C bus to the sensor. -/
inductive bus_txn where
  | read (reg : Nat)
  | write (reg : Nat) (value : Nat)
deriving DecidableEq, Repr

/-- The sensor behind the I2C bus as the driver sees it.  `regs` is the register
file; `driven n reg`, when present, is a value the sensor itself presents for
`reg` at transfer number `n` (status flags), overriding the register file;
`result n` is the result code of transfer number `n`; `log` lists the transfers
issued so far, oldest first. -/
structure qmi_bus where
  regs : Nat → Nat
  driven : Nat → Nat → Option Nat
  result : Nat → esp_err_t
  log : List bus_txn

/-- `bsp_qmi8658_reg_read` of one byte: result code, byte read, bus afterwards.
A failed transfer delivers no byte (reported as `0`; callers do not use it). -/
def bsp_qmi8658_reg_read (bus : qmi_bus) (reg_addr : Nat) : esp_err_t × Nat × qmi_bus :=
  let n := bus.log.length
  let bus' := { bus with log := bus.log ++ [bus_txn.read reg_addr] }
  if bus.result n != ESP_OK then (bus.result n, 0, bus')
  else
    let value := match bus.driven n reg_addr with
      | some v => v
      | none => bus.regs reg_addr
    (ESP_OK, value % 256, bus')

/-- `bsp_qmi8658_reg_write_byte` of one byte: result code and bus afterwards.
A failed transfer leaves the register file as it was. -/
def bsp_qmi8658_reg_write_byte (bus : qmi_bus) (reg_addr : Nat) (data : Nat) :
    esp_err_t × qmi_bus :=
  let n := bus.log.length
  let bus' := { bus with log := bus.log ++ [bus_txn.write reg_addr (data % 256)] }
  if bus.result n != ESP_OK then (bus.result n, bus')
  else
    (ESP_OK, { bus' with regs := fun r => if r = reg_addr then data % 256 else bus.regs r })

/-- `bsp_qmi8658_enable_wom_interrupt`. -/
def bsp_qmi8658_enable_wom_interrupt (bus : qmi_bus) : esp_err_t × qmi_bus :=
  let (err, ctrl1, bus) := bsp_qmi8658_reg_read bus 0x02
  if err != ESP_OK then (err, bus)
  else
    let ctrl1 := ctrl1 ||| 0x50
    let (err, bus) := bsp_qmi8658_reg_write_byte bus 0x02 ctrl1
    if err != ESP_OK then (err, bus)
    else (ESP_OK, bus)

/-- `bsp_qmi8658_disable_wom_interrupt`; the `int` mask `~0x10` acts on the byte
as its low eight bits `0xFF ^ 0x10`. -/
def bsp_qmi8658_disable_wom_interrupt (bus : qmi_bus) : esp_err_t × qmi_bus :=
  let (err, ctrl1, bus) := bsp_qmi8658_reg_read bus 0x02
  if err != ESP_OK then (err, bus)
  else
    let ctrl1 := ctrl1 &&& (0xFF ^^^ 0x10)
    let (err, bus) := bsp_qmi8658_reg_write_byte bus 0x02 ctrl1
    if err != ESP_OK then (err, bus)
    else (ESP_OK, bus)

/-- A sensor whose registers all hold `0` except the control register CTRL1
(`0x02`), which holds `x`; no transfer fails and no register is sensor-driven. -/
def bus_with_ctrl1 (x : Nat) : qmi_bus :=
  { regs := fun r => if r = 0x02 then x else 0,
    driven := fun _ _ => none,
    result := fun _ => ESP_OK,
    log := [] }

/-! ## `bsp_qmi8658.c`: wake-on-motion configuration -/

/-- The `qmi8658_wom_config_t` record (`threshold_mg` is a `uint16_t`, the next
two fields are `uint8_t`). -/
structure qmi8658_wom_config_t where
  threshold_mg : Nat
  blanking_samples : Nat
  odr_mode : Nat
  enable_interrupt : Bool
deriving DecidableEq, Repr

def CTRL_CMD_WRITE_WOM_SETTING : Nat := 0x08
def CTRL_CMD_ACK : Nat := 0x00

/-- The byte the sensor presents for `reg` at transfer number `n`: what
`bsp_qmi8658_reg_read` delivers when that transfer succeeds. -/
def sensor_value (bus : qmi_bus) (n reg : Nat) : Nat :=
  (match bus.driven n reg with
    | some v => v
    | none => bus.regs reg) % 256

/-- The `while (timeout-- > 0)` loop of `wait_ctrl9_completion`, with `timeout`
iterations left (the 1 ms delay between polls is not represented). -/
def wait_ctrl9_loop : Nat → qmi_bus → esp_err_t × qmi_bus
  | 0, bus => (ESP_ERR_TIMEOUT, bus)
  | timeout + 1, bus =>
      let r := bsp_qmi8658_reg_read bus 0x2D
      if r.1 != ESP_OK then (r.1, r.2.2)
      else if r.2.1 &&& 0x80 != 0 then
        bsp_qmi8658_reg_write_byte r.2.2 0x0A CTRL_CMD_ACK
      else wait_ctrl9_loop timeout r.2.2

/-- `wait_ctrl9_completion`: `int timeout = 100`. -/
def wait_ctrl9_completion (bus : qmi_bus) : esp_err_t × qmi_bus :=
  wait_ctrl9_loop 100 bus

/-- `bsp_qmi8658_configure_wom`; `none` is the NULL pointer.  Each local byte
variable is the C expression converted to `uint8_t`. -/
def bsp_qmi8658_configure_wom (bus : qmi_bus) (config : Option qmi8658_wom_config_t) :
    esp_err_t × qmi_bus :=
  match config with
  | none => (ESP_ERR_INVALID_ARG, bus)
  | some config =>
    let disable_sensors := 0x00
    let r1 := bsp_qmi8658_reg_write_byte bus 0x08 disable_sensors
    if r1.1 != ESP_OK then r1
    else
      let odr_val := (config.odr_mode ||| 0x05) % 256
      let r2 := bsp_qmi8658_reg_write_byte r1.2 0x03 odr_val
      if r2.1 != ESP_OK then r2
      else
        let wom_threshold := config.threshold_mg % 256
        let r3 := bsp_qmi8658_reg_write_byte r2.2 0x0B wom_threshold
        if r3.1 != ESP_OK then r3
        else
          let int_config :=
            (((config.blanking_samples &&& 0x03) <<< 6) ||| (0x01 <<< 4) ||| 0x00) % 256
          let r4 := bsp_qmi8658_reg_write_byte r3.2 0x0C int_config
          if r4.1 != ESP_OK then r4
          else
            let wom_cmd := CTRL_CMD_WRITE_WOM_SETTING
            let r5 := bsp_qmi8658_reg_write_byte r4.2 0x0A wom_cmd
            if r5.1 != ESP_OK then r5
            else
              let r6 := wait_ctrl9_completion r5.2
              if r6.1 != ESP_OK then r6
              else
                let enable_accel := 0x01
                let r7 := bsp_qmi8658_reg_write_byte r6.2 0x08 enable_accel
                if r7.1 != ESP_OK then r7
                else (ESP_OK, r7.2)

/-- The five register writes of steps 1-5 of `bsp_qmi8658_configure_wom`, in
program order, as they appear on the bus. -/
def wom_setup_writes (config : qmi8658_wom_config_t) : List bus_txn :=
  [bus_txn.write 0x08 0x00,
   bus_txn.write 0x03 ((config.odr_mode ||| 0x05) % 256),
   bus_txn.write 0x0B (config.threshold_mg % 256),
   bus_txn.write 0x0C
     ((((config.blanking_samples &&& 0x03) <<< 6) ||| (0x01 <<< 4) ||| 0x00) % 256),
   bus_txn.write 0x0A 0x08]

/-- The bytes written to register `reg` among the transfers `log`, in order. -/
def bytes_written (reg : Nat) (log : List bus_txn) : List Nat :=
  log.filterMap fun t =>
    match t with
    | bus_txn.write r v => if r = reg then some v else none
    | bus_txn.read _ => none

/-- A sensor with all registers `0` on which transfer number `fail_at` fails with
`err` and every other transfer succeeds, and whose status-interrupt register
(`0x2D`) reads `0x80` (command done) from transfer number `done_from` on and `0`
before. -/
def scripted_bus (fail_at : Option Nat) (err : esp_err_t) (done_from : Nat) : qmi_bus :=
  { regs := fun _ => 0,
    driven := fun n reg => if reg = 0x2D then some (if done_from ≤ n then 0x80 else 0) else none,
    result := fun n => if fail_at = some n then err else ESP_OK,
    log := [] }

/-- The `p` transfers starting at number `start` all succeed and, read as polls of
the status-interrupt register (`0x2D`), all show the command-done bit clear. -/
def polls_pending (bus : qmi_bus) (start p : Nat) : Prop :=
  ∀ j, j < p → bus.result (start + j) = ESP_OK ∧
    sensor_value bus (start + j) 0x2D &&& 0x80 = 0

/-- The power subsystem after a successful `power_manager_init` at time 0 with the
application's configuration (dim after 10 s, off after 20 s, user brightness 80,
dim brightness 2, fading on) followed by the registration of the callbacks `cbs`,
each with the lock obtained. -/
def power_system_with_callbacks (cbs : List power_state_cb_t) : power_system :=
  let s := (power_manager_init power_system_zero
    { dim_timeout_ms := SCREEN_DIM_START_MS, off_timeout_ms := SCREEN_OFF_TIMEOUT_MS,
      sleep_timeout_ms := 30000, dim_brightness := 2, user_brightness := 80,
      enable_fade := true, fade_duration_ms := 1000 } 0 ⟨true, true, true, true⟩).2
  { s with pm := (register_all s.pm (cbs.map fun cb => (cb, true))).2 }

/-! ## `power_manager.c`: user brightness and sleep -/

/-- `power_manager_set_user_brightness`; `fade_start_ok` says whether the fade
timer starts if the display asks for it. -/
def power_manager_set_user_brightness (s : power_system) (brightness : Nat)
    (fade_start_ok : Bool) : esp_err_t × power_system :=
  if !s.pm.initialized then (ESP_ERR_INVALID_STATE, s)
  else
    let brightness := brightness % 256
    let brightness := if brightness > 100 then 100 else brightness
    let s := { s with pm := { s.pm with
                 config := { s.pm.config with user_brightness := brightness } } }
    if s.pm.current_state == POWER_STATE_ACTIVE then
      let r := call_display_power_set_brightness s brightness s.pm.config.enable_fade
        fade_start_ok
      if r.1 != ESP_OK then r
      else (ESP_OK, r.2)
    else (ESP_OK, s)

/-- `power_manager_get_user_brightness`. -/
def power_manager_get_user_brightness (ctx : power_context_t) : Nat :=
  ctx.config.user_brightness

/-- What the sleep API reports to the power manager: the result code of each
arming call and the result of `esp_light_sleep_start`. -/
structure sleep_env where
  timer_wakeup_result : esp_err_t
  gpio_wakeup_enable_result : esp_err_t
  gpio_wakeup_result : esp_err_t
  uart_wakeup_result : esp_err_t
  light_sleep_result : esp_err_t
deriving DecidableEq, Repr

/-- `configure_sleep_wake_sources`: the three wake channels are armed one after
the other; the result codes of the arming calls are not looked at. -/
def configure_sleep_wake_sources (s : power_system) (env : sleep_env) :
    esp_err_t × power_system :=
  let s := { s with wake_arms := s.wake_arms ++ [wake_arm.timer_wakeup 100000] }
  let s := { s with wake_arms := s.wake_arms ++ [wake_arm.gpio_wakeup_enable 9 true] }
  let s := { s with wake_arms := s.wake_arms ++ [wake_arm.gpio_wakeup] }
  let s := { s with wake_arms := s.wake_arms ++ [wake_arm.uart_wakeup 1] }
  (ESP_OK, s)

/-- `power_manager_configure_light_sleep`. -/
def power_manager_configure_light_sleep (s : power_system) (env : sleep_env) :
    esp_err_t × power_system :=
  if !s.pm.initialized then (ESP_ERR_INVALID_STATE, s)
  else
    let r := configure_sleep_wake_sources s env
    if r.1 != ESP_OK then r
    else (ESP_OK, r.2)

/-- `power_manager_enter_manual_sleep`.  `duration_ms * 1000` is a product of
32-bit unsigned values and is reduced modulo `2^32` before it is handed to the
64-bit parameter of `esp_sleep_enable_timer_wakeup`.  `now` is the clock after
wake-up. -/
def power_manager_enter_manual_sleep (s : power_system) (duration_ms : Nat) (env : sleep_env)
    (now : Int) (lock_ok : Bool) (fade_start_ok : Bool) : esp_err_t × power_system :=
  if !s.pm.initialized then (ESP_ERR_INVALID_STATE, s)
  else
    let duration_ms := duration_ms % 4294967296
    let s := { s with wake_arms :=
                 s.wake_arms ++ [wake_arm.timer_wakeup ((duration_ms * 1000) % 4294967296)] }
    let s := { s with wake_arms := s.wake_arms ++ [wake_arm.uart_wakeup 1] }
    let ret := env.light_sleep_result
    let s := power_manager_reset_activity s WAKE_SOURCE_TIMER now lock_ok fade_start_ok
    (ret, s)

/-- The calls that can be made on the power manager after `power_manager_init`,
each with what the environment decides during the call. -/
inductive power_op where
  | tick (now : Int) (lock_ok fade_start_ok : Bool)
  | reset_activity (source : wake_source_t) (now : Int) (lock_ok fade_start_ok : Bool)
  | set_user_brightness (brightness : Nat) (fade_start_ok : Bool)
  | register_state_callback (callback : power_state_cb_t) (lock_ok : Bool)
  | force_state (state : power_state_t) (lock_ok fade_start_ok : Bool)
  | configure_light_sleep (env : sleep_env)
  | enter_manual_sleep (duration_ms : Nat) (env : sleep_env) (now : Int)
      (lock_ok fade_start_ok : Bool)
deriving DecidableEq, Repr

def power_apply (s : power_system) : power_op → power_system
  | .tick now lock_ok fade_start_ok => power_timer_callback s now lock_ok fade_start_ok
  | .reset_activity source now lock_ok fade_start_ok =>
      power_manager_reset_activity s source now lock_ok fade_start_ok
  | .set_user_brightness b fade_start_ok =>
      (power_manager_set_user_brightness s b fade_start_ok).2
  | .register_state_callback cb lock_ok =>
      { s with pm := (power_manager_register_state_callback s.pm cb lock_ok).2 }
  | .force_state state lock_ok fade_start_ok =>
      (power_manager_force_state s state lock_ok fade_start_ok).2
  | .configure_light_sleep env => (power_manager_configure_light_sleep s env).2
  | .enter_manual_sleep d env now lock_ok fade_start_ok =>
      (power_manager_enter_manual_sleep s d env now lock_ok fade_start_ok).2

def power_run (s : power_system) (ops : List power_op) : power_system :=
  ops.foldl power_apply s

/-! ## `bsp_qmi8658.c`: WoM event flag -/

/-- `bsp_qmi8658_check_wom_event`: the flag and the bus afterwards. -/
def bsp_qmi8658_check_wom_event (bus : qmi_bus) : Bool × qmi_bus :=
  let r := bsp_qmi8658_reg_read bus 0x2F
  if r.1 == ESP_OK then (r.2.1 &&& 0x04 != 0, r.2.2)
  else (false, r.2.2)

end C6Touch

/-! # Properties -/

namespace C6Touch

open power_state_t wake_source_t

/-! ## Fade controller -/

/-- One fade step in closed form, for byte-sized brightness values. -/
theorem fade_timer_callback_current (ctx : display_context_t)
    (hc : ctx.current_brightness < 256) (ht : ctx.target_brightness < 256) :
    (fade_timer_callback ctx).current_brightness =
      if ctx.fade_active = true then ramp ctx.current_brightness ctx.target_brightness 1
      else ctx.current_brightness := by
  unfold fade_timer_callback ramp FADE_STEP_SIZE to_u8
  generalize ctx.current_brightness = c at hc ⊢
  generalize ctx.target_brightness = t at ht ⊢
  by_cases ha : ctx.fade_active = true
  · by_cases he : c = t
    · simp [ha, he]
    · simp only [ha, he, Bool.not_true, Bool.false_or, beq_iff_eq, if_false, if_true,
        Bool.or_eq_true, decide_eq_true_eq]
      split_ifs <;> omega
  · simp [ha]

theorem fade_timer_callback_target (ctx : display_context_t) :
    (fade_timer_callback ctx).target_brightness = ctx.target_brightness := by
  unfold fade_timer_callback
  split <;> rfl

theorem fade_timer_callback_active (ctx : display_context_t) :
    (fade_timer_callback ctx).fade_active =
      (ctx.fade_active && !(ctx.current_brightness == ctx.target_brightness)) := by
  unfold fade_timer_callback
  by_cases ha : ctx.fade_active = true
  · by_cases he : ctx.current_brightness = ctx.target_brightness
    · simp [ha, he]
    · simp [ha, he]
  · simp [ha]

theorem ramp_le_max (c t k : Nat) : ramp c t k ≤ max c t := by
  unfold ramp
  split_ifs <;> omega

theorem ramp_ramp_one (c t k : Nat) : ramp (ramp c t 1) t k = ramp c t (k + 1) := by
  unfold ramp FADE_STEP_SIZE
  split_ifs <;> omega

theorem ramp_self (t k : Nat) : ramp t t k = t := by
  unfold ramp
  split_ifs <;> omega

/-- The ramp is at its goal exactly from `fade_step_count` steps on. -/
theorem ramp_eq_iff (c t k : Nat) : ramp c t k = t ↔ fade_step_count c t ≤ k := by
  unfold ramp fade_step_count FADE_STEP_SIZE
  split_ifs <;> omega

/-- Closed form of `n` fade steps: while a fade is pending (or the controller is
already at its target) the brightness follows the ramp and the target stays. -/
theorem fade_steps_current (n : Nat) (ctx : display_context_t)
    (hc : ctx.current_brightness < 256) (ht : ctx.target_brightness < 256)
    (h : ctx.fade_active = true ∨ ctx.current_brightness = ctx.target_brightness) :
    (fade_steps n ctx).current_brightness = ramp ctx.current_brightness ctx.target_brightness n
      ∧ (fade_steps n ctx).target_brightness = ctx.target_brightness := by
  induction n generalizing ctx with
  | zero =>
      refine ⟨?_, rfl⟩
      show ctx.current_brightness = _
      unfold ramp
      split_ifs <;> omega
  | succ n ih =>
      have h1 : (fade_timer_callback ctx).current_brightness =
          ramp ctx.current_brightness ctx.target_brightness 1 := by
        rw [fade_timer_callback_current ctx hc ht]
        rcases h with h | h
        · simp [h]
        · split_ifs
          · rfl
          · rw [h, ramp_self]
      have h2 := fade_timer_callback_target ctx
      have h3 := fade_timer_callback_active ctx
      have hb := ramp_le_max ctx.current_brightness ctx.target_brightness 1
      have hinv : (fade_timer_callback ctx).fade_active = true ∨
          (fade_timer_callback ctx).current_brightness
            = (fade_timer_callback ctx).target_brightness := by
        by_cases he : ctx.current_brightness = ctx.target_brightness
        · right
          rw [h1, h2, he, ramp_self]
        · rcases h with h | h
          · left
            rw [h3, h]
            simp [he]
          · exact absurd h he
      have := ih (fade_timer_callback ctx) (by rw [h1]; omega) (by rw [h2]; exact ht) hinv
      show (fade_steps n (fade_timer_callback ctx)).current_brightness = _ ∧
        (fade_steps n (fade_timer_callback ctx)).target_brightness = _
      rw [this.1, this.2, h1, h2, ramp_ramp_one]
      exact ⟨rfl, rfl⟩

theorem fade_steps_add (m n : Nat) (ctx : display_context_t) :
    fade_steps (m + n) ctx = fade_steps n (fade_steps m ctx) := by
  induction m generalizing ctx with
  | zero => simp [fade_steps]
  | succ m ih =>
      rw [Nat.succ_add]
      exact ih (fade_timer_callback ctx)

/-- Once the controller is inactive it stays inactive under fade steps. -/
theorem fade_steps_inactive (n : Nat) (ctx : display_context_t)
    (h : ctx.fade_active = false) : (fade_steps n ctx).fade_active = false := by
  induction n generalizing ctx with
  | zero => exact h
  | succ n ih =>
      apply ih
      rw [fade_timer_callback_active, h]
      rfl

/-- A fade step taken at the target clears `fade_active`, and so does every later
one. -/
theorem fade_steps_at_target (n : Nat) (ctx : display_context_t)
    (h : ctx.current_brightness = ctx.target_brightness) :
    (fade_steps (n + 1) ctx).fade_active = false := by
  show (fade_steps n (fade_timer_callback ctx)).fade_active = false
  apply fade_steps_inactive
  rw [fade_timer_callback_active, h]
  simp

/-! ### Reachable states of the fade controller -/

theorem display_power_init_range (b : Nat) (fade ok : Bool) :
    (display_power_init display_ctx_zero b fade ok).2.current_brightness ≤ 100 ∧
    (display_power_init display_ctx_zero b fade ok).2.target_brightness ≤ 100 := by
  unfold display_power_init display_ctx_zero
  dsimp only
  cases fade <;> cases ok <;> simp <;> split_ifs <;> omega

theorem display_power_set_brightness_range (ctx : display_context_t) (b : Nat) (a ok : Bool)
    (h : ctx.current_brightness ≤ 100 ∧ ctx.target_brightness ≤ 100) :
    (display_power_set_brightness ctx b a ok).2.current_brightness ≤ 100 ∧
    (display_power_set_brightness ctx b a ok).2.target_brightness ≤ 100 := by
  unfold display_power_set_brightness
  dsimp only
  split_ifs <;> dsimp only <;> omega

theorem fade_timer_callback_range (ctx : display_context_t)
    (h : ctx.current_brightness ≤ 100 ∧ ctx.target_brightness ≤ 100) :
    (fade_timer_callback ctx).current_brightness ≤ 100 ∧
    (fade_timer_callback ctx).target_brightness ≤ 100 := by
  have h1 := fade_timer_callback_current ctx (by omega) (by omega)
  have h2 := fade_timer_callback_target ctx
  have h3 := ramp_le_max ctx.current_brightness ctx.target_brightness 1
  rw [h1, h2]
  split_ifs <;> omega

theorem display_power_stop_fade_range (ctx : display_context_t)
    (h : ctx.current_brightness ≤ 100 ∧ ctx.target_brightness ≤ 100) :
    (display_power_stop_fade ctx).current_brightness ≤ 100 ∧
    (display_power_stop_fade ctx).target_brightness ≤ 100 := by
  unfold display_power_stop_fade
  split_ifs <;> exact h

theorem display_run_range (ops : List display_op) (ctx : display_context_t)
    (h : ctx.current_brightness ≤ 100 ∧ ctx.target_brightness ≤ 100) :
    (display_run ctx ops).current_brightness ≤ 100 ∧
    (display_run ctx ops).target_brightness ≤ 100 := by
  induction ops generalizing ctx with
  | nil => exact h
  | cons op ops ih =>
      show (display_run (display_apply ctx op) ops).current_brightness ≤ 100 ∧ _
      apply ih
      cases op with
      | set_brightness b a ok => exact display_power_set_brightness_range ctx b a ok h
      | fade_step => exact fade_timer_callback_range ctx h
      | stop_fade => exact display_power_stop_fade_range ctx h

/-- C5. In every state reached from `display_power_init` by any sequence of
`display_power_set_brightness`, fade-step and `display_power_stop_fade` calls,
whatever the arguments, `current_brightness` and `target_brightness` are both
at most 100. -/
theorem brightness_range_invariant (initial_brightness : Nat)
    (enable_fade timer_create_ok : Bool) (ops : List display_op) :
    (display_run (display_power_init display_ctx_zero initial_brightness enable_fade
        timer_create_ok).2 ops).current_brightness ≤ 100 ∧
    (display_run (display_power_init display_ctx_zero initial_brightness enable_fade
        timer_create_ok).2 ops).target_brightness ≤ 100 :=
  display_run_range ops _ (display_power_init_range initial_brightness enable_fade timer_create_ok)

/-- C6, as stated, fails: after init at 0 with fading, an animated retarget to 4
and the one fade step that reaches 4, `fade_active` is still true although
`current_brightness` equals `target_brightness`. -/
theorem fade_active_invariant_counterexample :
    ¬ ((display_run (display_power_init display_ctx_zero 0 true true).2
          [display_op.set_brightness 4 true true, display_op.fade_step]).fade_active = true →
       (display_run (display_power_init display_ctx_zero 0 true true).2
          [display_op.set_brightness 4 true true, display_op.fade_step]).current_brightness ≠
       (display_run (display_power_init display_ctx_zero 0 true true).2
          [display_op.set_brightness 4 true true, display_op.fade_step]).target_brightness) := by
  decide

/-- C6, amended. In every reachable state of the fade controller: if
`current_brightness` equals `target_brightness`, the next fade step leaves
`fade_active` false and both brightness values unchanged (so an active flag at the
target lasts at most until the next step); and a `display_power_set_brightness`
call that turns `fade_active` from false to true leaves `current_brightness`
different from `target_brightness`. -/
theorem fade_active_cleared_at_target (initial_brightness : Nat)
    (enable_fade timer_create_ok : Bool) (ops : List display_op) :
    ((display_run (display_power_init display_ctx_zero initial_brightness enable_fade
          timer_create_ok).2 ops).current_brightness =
       (display_run (display_power_init display_ctx_zero initial_brightness enable_fade
          timer_create_ok).2 ops).target_brightness →
      (fade_timer_callback (display_run (display_power_init display_ctx_zero
          initial_brightness enable_fade timer_create_ok).2 ops)).fade_active = false ∧
      (fade_timer_callback (display_run (display_power_init display_ctx_zero
          initial_brightness enable_fade timer_create_ok).2 ops)).current_brightness =
        (display_run (display_power_init display_ctx_zero initial_brightness enable_fade
          timer_create_ok).2 ops).current_brightness ∧
      (fade_timer_callback (display_run (display_power_init display_ctx_zero
          initial_brightness enable_fade timer_create_ok).2 ops)).target_brightness =
        (display_run (display_power_init display_ctx_zero initial_brightness enable_fade
          timer_create_ok).2 ops).target_brightness) ∧
    (∀ (b : Nat) (a ok : Bool),
      (display_run (display_power_init display_ctx_zero initial_brightness enable_fade
          timer_create_ok).2 ops).fade_active = false →
      (display_power_set_brightness (display_run (display_power_init display_ctx_zero
          initial_brightness enable_fade timer_create_ok).2 ops) b a ok).2.fade_active = true →
      (display_power_set_brightness (display_run (display_power_init display_ctx_zero
          initial_brightness enable_fade timer_create_ok).2 ops) b a ok).2.current_brightness ≠
      (display_power_set_brightness (display_run (display_power_init display_ctx_zero
          initial_brightness enable_fade timer_create_ok).2 ops) b a ok).2.target_brightness) := by
  generalize display_run (display_power_init display_ctx_zero initial_brightness enable_fade
    timer_create_ok).2 ops = s
  constructor
  · intro h
    refine ⟨?_, ?_, fade_timer_callback_target s⟩
    · rw [fade_timer_callback_active, h]
      simp
    · unfold fade_timer_callback
      simp [h]
  · intro b a ok hf
    unfold display_power_set_brightness
    dsimp only
    split_ifs <;> simp_all

/-- State of the controller right after an animated retarget that started (or
kept) a fade: what `display_power_set_brightness` leaves when the step timer
starts. -/
theorem display_power_set_brightness_animated (ctx : display_context_t) (t : Nat)
    (hi : ctx.initialized = true) (hf : ctx.fade_enabled = true) (htm : ctx.fade_timer = true)
    (ht : t ≤ 100) (hne : ctx.current_brightness ≠ t) :
    (display_power_set_brightness ctx t true true).1 = ESP_OK ∧
    (display_power_set_brightness ctx t true true).2.current_brightness
      = ctx.current_brightness ∧
    (display_power_set_brightness ctx t true true).2.target_brightness = t ∧
    (display_power_set_brightness ctx t true true).2.fade_active = true := by
  have h1 : t % 256 = t := by omega
  have h2 : ¬ (t > 100) := by omega
  unfold display_power_set_brightness
  simp [hi, hf, htm, h1, h2, hne]

/-- C7. From any current brightness `c ≤ 100`, an animated
`display_power_set_brightness(t, true)` with `t ≤ 100`, `t ≠ c`, fading enabled
and the step timer started returns success, and `current_brightness` equals `t`
after exactly `fade_step_count c t` fade steps and after no smaller number, where
that count is the distance `|t - c|` divided by `FADE_STEP_SIZE = 4` rounded up. -/
theorem fade_step_count_exact (ctx : display_context_t) (t : Nat)
    (hi : ctx.initialized = true) (hf : ctx.fade_enabled = true) (htm : ctx.fade_timer = true)
    (hc : ctx.current_brightness ≤ 100) (ht : t ≤ 100) (hne : ctx.current_brightness ≠ t) :
    (display_power_set_brightness ctx t true true).1 = ESP_OK ∧
    (fade_steps (fade_step_count ctx.current_brightness t)
        (display_power_set_brightness ctx t true true).2).current_brightness = t ∧
    (∀ k, k < fade_step_count ctx.current_brightness t →
      (fade_steps k (display_power_set_brightness ctx t true true).2).current_brightness ≠ t) ∧
    4 * (fade_step_count ctx.current_brightness t - 1)
        < ((t : Int) - (ctx.current_brightness : Int)).natAbs ∧
    ((t : Int) - (ctx.current_brightness : Int)).natAbs
        ≤ 4 * fade_step_count ctx.current_brightness t := by
  obtain ⟨h0, h1, h2, h3⟩ := display_power_set_brightness_animated ctx t hi hf htm ht hne
  have hs : ∀ k, (fade_steps k (display_power_set_brightness ctx t true true).2).current_brightness
      = ramp ctx.current_brightness t k := by
    intro k
    have := (fade_steps_current k (display_power_set_brightness ctx t true true).2
      (by rw [h1]; omega) (by rw [h2]; omega) (Or.inl h3)).1
    rw [this, h1, h2]
  refine ⟨h0, ?_, ?_, ?_, ?_⟩
  · rw [hs, ramp_eq_iff]
  · intro k hk
    rw [hs]
    intro h
    rw [ramp_eq_iff] at h
    omega
  · unfold fade_step_count FADE_STEP_SIZE
    omega
  · unfold fade_step_count FADE_STEP_SIZE
    omega

/-- The controller after `display_power_init(0, true)` with the step timer created. -/
theorem fade_step_count_exact_witness :
    fade_step_count 0 80 = 20 ∧
    (fade_steps 20 (display_power_set_brightness
        (display_power_init display_ctx_zero 0 true true).2 80 true true).2).current_brightness
      = 80 ∧
    (∀ k, k < 20 → (fade_steps k (display_power_set_brightness
        (display_power_init display_ctx_zero 0 true true).2 80 true true).2).current_brightness
      ≠ 80) :=
  have h := fade_step_count_exact (display_power_init display_ctx_zero 0 true true).2 80
    (by decide) (by decide) (by decide) (by decide) (by decide) (by decide)
  ⟨by decide, h.2.1, h.2.2.1⟩

/-- C8. One fade step of an active fade with current `c ≤ 100` and target
`t ≤ 100` gives `c'` between `c` and `t`, strictly closer to `t` when `c ≠ t`, at
most 4 away from `c`; its value is the unwrapped integer result: `min (c+4) t`
going up and `max (c-4) t` (computed in the integers) going down, so a downward
step never goes below the target and the byte arithmetic never wraps. -/
theorem fade_step_no_overshoot (ctx : display_context_t)
    (ha : ctx.fade_active = true)
    (hc : ctx.current_brightness ≤ 100) (ht : ctx.target_brightness ≤ 100) :
    min ctx.current_brightness ctx.target_brightness
        ≤ (fade_timer_callback ctx).current_brightness ∧
    (fade_timer_callback ctx).current_brightness
        ≤ max ctx.current_brightness ctx.target_brightness ∧
    (ctx.current_brightness ≠ ctx.target_brightness →
      ((ctx.target_brightness : Int) - ((fade_timer_callback ctx).current_brightness : Int)).natAbs
        < ((ctx.target_brightness : Int) - (ctx.current_brightness : Int)).natAbs) ∧
    (((fade_timer_callback ctx).current_brightness : Int)
        - (ctx.current_brightness : Int)).natAbs ≤ 4 ∧
    (ctx.current_brightness < ctx.target_brightness →
      ((fade_timer_callback ctx).current_brightness : Int)
        = min ((ctx.current_brightness : Int) + 4) (ctx.target_brightness : Int)) ∧
    (ctx.target_brightness < ctx.current_brightness →
      ((fade_timer_callback ctx).current_brightness : Int)
        = max ((ctx.current_brightness : Int) - 4) (ctx.target_brightness : Int)) ∧
    (fade_timer_callback ctx).target_brightness = ctx.target_brightness := by
  have h1 := fade_timer_callback_current ctx (by omega) (by omega)
  rw [if_pos ha] at h1
  rw [h1, fade_timer_callback_target]
  unfold ramp FADE_STEP_SIZE
  split_ifs <;> omega

/-- The fade 83 → 10: eighteen steps reach 11, and the step from 11 lands on 10. -/
theorem fade_step_no_overshoot_witness :
    (fade_steps 18 (display_power_set_brightness
        (display_power_init display_ctx_zero 83 true true).2 10 true true).2).current_brightness
      = 11 ∧
    (fade_steps 19 (display_power_set_brightness
        (display_power_init display_ctx_zero 83 true true).2 10 true true).2).current_brightness
      = 10 ∧
    min 11 10 ≤ (fade_timer_callback (fade_steps 18 (display_power_set_brightness
        (display_power_init display_ctx_zero 83 true true).2 10 true true).2)).current_brightness :=
  ⟨by decide, by decide,
   (fade_step_no_overshoot (fade_steps 18 (display_power_set_brightness
        (display_power_init display_ctx_zero 83 true true).2 10 true true).2)
      (by decide) (by decide) (by decide)).1⟩

theorem ramp_succ_toward (c t n : Nat) :
    min (ramp c t n) t ≤ ramp c t (n + 1) ∧ ramp c t (n + 1) ≤ max (ramp c t n) t ∧
    (ramp c t n ≠ t →
      ((t : Int) - (ramp c t (n + 1) : Int)).natAbs < ((t : Int) - (ramp c t n : Int)).natAbs) := by
  unfold ramp FADE_STEP_SIZE
  split_ifs <;> omega

/-- What an animated `display_power_set_brightness` leaves on an initialised
controller with fading available, whether or not the step timer starts. -/
theorem display_power_set_brightness_retarget (ctx : display_context_t) (t : Nat) (ok : Bool)
    (hi : ctx.initialized = true) (hf : ctx.fade_enabled = true) (htm : ctx.fade_timer = true)
    (ht : t ≤ 100) :
    (display_power_set_brightness ctx t true ok).2.target_brightness = t ∧
    ((display_power_set_brightness ctx t true ok).2.fade_active = true ∨
      (display_power_set_brightness ctx t true ok).2.current_brightness = t) ∧
    ((display_power_set_brightness ctx t true ok).2.current_brightness = ctx.current_brightness ∨
      (display_power_set_brightness ctx t true ok).2.current_brightness = t) := by
  have h1 : t % 256 = t := by omega
  have h2 : ¬ (t > 100) := by omega
  unfold display_power_set_brightness
  by_cases hne : ctx.current_brightness = t
  · simp [hi, hf, htm, h1, h2, hne]
  · cases ok <;> simp [hi, hf, htm, h1, h2, hne]

/-- C9. On an initialised controller with fading available and current value
`c` (whatever the old target and whether or not the step timer restarts), after
`display_power_set_brightness(t2, true)` with `t2 ≤ 100` the target is `t2`, every
later fade step leaves the brightness between its previous value and `t2` and
strictly closer to `t2` unless already there, the brightness is exactly `t2` from
`fade_step_count c t2` steps on, and one step later the fade is no longer active. -/
theorem retarget_mid_fade (ctx : display_context_t) (t2 : Nat) (start_ok : Bool)
    (hi : ctx.initialized = true) (hf : ctx.fade_enabled = true) (htm : ctx.fade_timer = true)
    (hc : ctx.current_brightness < 256) (ht2 : t2 ≤ 100) :
    (∀ n,
      (fade_steps n (display_power_set_brightness ctx t2 true start_ok).2).target_brightness
        = t2 ∧
      min (fade_steps n (display_power_set_brightness ctx t2 true start_ok).2).current_brightness
          t2
        ≤ (fade_steps (n + 1)
            (display_power_set_brightness ctx t2 true start_ok).2).current_brightness ∧
      (fade_steps (n + 1) (display_power_set_brightness ctx t2 true start_ok).2).current_brightness
        ≤ max (fade_steps n
            (display_power_set_brightness ctx t2 true start_ok).2).current_brightness t2 ∧
      ((fade_steps n (display_power_set_brightness ctx t2 true start_ok).2).current_brightness
          ≠ t2 →
        ((t2 : Int) - ((fade_steps (n + 1)
            (display_power_set_brightness ctx t2 true start_ok).2).current_brightness : Int)).natAbs
          < ((t2 : Int) - ((fade_steps n
            (display_power_set_brightness ctx t2 true start_ok).2).current_brightness : Int)).natAbs))
    ∧ (∀ n, fade_step_count ctx.current_brightness t2 ≤ n →
        (fade_steps n (display_power_set_brightness ctx t2 true start_ok).2).current_brightness
          = t2)
    ∧ (∀ n, fade_step_count ctx.current_brightness t2 < n →
        (fade_steps n (display_power_set_brightness ctx t2 true start_ok).2).fade_active
          = false) := by
  obtain ⟨h1, h2, h3⟩ := display_power_set_brightness_retarget ctx t2 start_ok hi hf htm ht2
  generalize (display_power_set_brightness ctx t2 true start_ok).2 = s at h1 h2 h3 ⊢
  have hs : ∀ n, (fade_steps n s).current_brightness = ramp s.current_brightness t2 n ∧
      (fade_steps n s).target_brightness = t2 := by
    intro n
    have := fade_steps_current n s (by rcases h3 with h | h <;> omega) (by omega)
      (by rw [h1]; exact h2)
    rw [h1] at this
    exact this
  have hrest : ∀ n, fade_step_count ctx.current_brightness t2 ≤ n →
      (fade_steps n s).current_brightness = t2 := by
    intro n hn
    rw [(hs n).1, ramp_eq_iff]
    rcases h3 with h | h
    · rw [h]; exact hn
    · rw [h]
      unfold fade_step_count FADE_STEP_SIZE
      omega
  refine ⟨?_, hrest, ?_⟩
  · intro n
    rw [(hs n).1, (hs (n + 1)).1]
    exact ⟨(hs n).2, ramp_succ_toward s.current_brightness t2 n⟩
  · intro n hn
    obtain ⟨m, rfl⟩ : ∃ m, n = fade_step_count ctx.current_brightness t2 + (m + 1) :=
      ⟨n - fade_step_count ctx.current_brightness t2 - 1, by omega⟩
    rw [fade_steps_add]
    apply fade_steps_at_target
    rw [hrest _ (le_refl _), (hs _).2]

/-- The fade 0 → 80 caught at 40 and retargeted to 20: it descends 36, 32, 28, 24,
20 and the next step ends the fade. -/
theorem retarget_mid_fade_witness :
    (fade_steps 10 (display_power_set_brightness
        (display_power_init display_ctx_zero 0 true true).2 80 true true).2).current_brightness
      = 40 ∧
    (List.map (fun n => (fade_steps n (display_power_set_brightness
        (fade_steps 10 (display_power_set_brightness
          (display_power_init display_ctx_zero 0 true true).2 80 true true).2)
        20 true true).2).current_brightness) [1, 2, 3, 4, 5, 6]) = [36, 32, 28, 24, 20, 20] ∧
    (fade_steps 6 (display_power_set_brightness
        (fade_steps 10 (display_power_set_brightness
          (display_power_init display_ctx_zero 0 true true).2 80 true true).2)
        20 true true).2).fade_active = false :=
  ⟨by decide, by decide,
   (retarget_mid_fade (fade_steps 10 (display_power_set_brightness
          (display_power_init display_ctx_zero 0 true true).2 80 true true).2) 20 true
      (by decide) (by decide) (by decide) (by decide) (by decide)).2.2 6 (by decide)⟩

/-! ## Power state machine -/

/-- With the lock obtained, `transition_to_state` ends in the requested state and
touches neither the idle clock nor the initialisation flag. -/
theorem transition_to_state_locked (s : power_system) (new_state : power_state_t)
    (fade_start_ok : Bool) :
    (transition_to_state s new_state true fade_start_ok).2.pm.current_state = new_state ∧
    (transition_to_state s new_state true fade_start_ok).2.pm.last_activity_us
      = s.pm.last_activity_us ∧
    (transition_to_state s new_state true fade_start_ok).2.pm.initialized
      = s.pm.initialized := by
  unfold transition_to_state
  by_cases h : s.pm.current_state = new_state
  · simp [h]
  · cases new_state <;> simp [h, call_display_power_set_brightness]

theorem transition_to_state_clock (s : power_system) (new_state : power_state_t)
    (lock_ok fade_start_ok : Bool) :
    (transition_to_state s new_state lock_ok fade_start_ok).2.pm.last_activity_us
      = s.pm.last_activity_us ∧
    (transition_to_state s new_state lock_ok fade_start_ok).2.pm.initialized
      = s.pm.initialized := by
  cases lock_ok
  · simp [transition_to_state]
  · exact (transition_to_state_locked s new_state fade_start_ok).2

/-- C1. One tick of the periodic evaluator on an initialised power manager, with
the state lock obtained: whatever the configuration, the current state and the
clock, the state afterwards is Off if the idle time (as
`power_manager_get_idle_time_ms` computes it) is at least `off_timeout_ms`,
otherwise Dim if it is at least `dim_timeout_ms`, otherwise Active. -/
theorem evaluator_tick_state (s : power_system) (now : Int) (fade_start_ok : Bool)
    (hi : s.pm.initialized = true) :
    (power_timer_callback s now true fade_start_ok).pm.current_state =
      if power_manager_get_idle_time_ms s.pm now ≥ s.pm.config.off_timeout_ms then
        POWER_STATE_OFF
      else if power_manager_get_idle_time_ms s.pm now ≥ s.pm.config.dim_timeout_ms then
        POWER_STATE_DIM
      else POWER_STATE_ACTIVE := by
  unfold power_timer_callback
  simp only [hi, Bool.not_true, Bool.false_eq_true, if_false]
  generalize (if power_manager_get_idle_time_ms s.pm now ≥ s.pm.config.off_timeout_ms then
        POWER_STATE_OFF
      else if power_manager_get_idle_time_ms s.pm now ≥ s.pm.config.dim_timeout_ms then
        POWER_STATE_DIM
      else POWER_STATE_ACTIVE) = target
  by_cases h : target = s.pm.current_state
  · simp [h]
  · simp [h, (transition_to_state_locked s target fade_start_ok).1]

/-- With dim after 10 s and off after 20 s, last activity at time 0: a tick at
idle 0 ms leaves Active, at 10001 ms gives Dim, at 20001 ms gives Off. -/
theorem evaluator_tick_state_witness :
    (power_timer_callback (power_manager_init power_system_zero
        { dim_timeout_ms := SCREEN_DIM_START_MS, off_timeout_ms := SCREEN_OFF_TIMEOUT_MS,
          sleep_timeout_ms := 30000, dim_brightness := 2, user_brightness := 80,
          enable_fade := true, fade_duration_ms := 1000 } 0
        ⟨true, true, true, true⟩).2 0 true true).pm.current_state = POWER_STATE_ACTIVE ∧
    (power_timer_callback (power_manager_init power_system_zero
        { dim_timeout_ms := SCREEN_DIM_START_MS, off_timeout_ms := SCREEN_OFF_TIMEOUT_MS,
          sleep_timeout_ms := 30000, dim_brightness := 2, user_brightness := 80,
          enable_fade := true, fade_duration_ms := 1000 } 0
        ⟨true, true, true, true⟩).2 10001000 true true).pm.current_state = POWER_STATE_DIM ∧
    (power_timer_callback (power_manager_init power_system_zero
        { dim_timeout_ms := SCREEN_DIM_START_MS, off_timeout_ms := SCREEN_OFF_TIMEOUT_MS,
          sleep_timeout_ms := 30000, dim_brightness := 2, user_brightness := 80,
          enable_fade := true, fade_duration_ms := 1000 } 0
        ⟨true, true, true, true⟩).2 20001000 true true).pm.current_state = POWER_STATE_OFF :=
  ⟨by decide,
   (evaluator_tick_state _ 10001000 true (by decide)).trans (by decide),
   by decide⟩

/-- C2. When `power_manager_reset_activity` returns on an initialised power
manager, with the state lock obtained, the current state is Active, whatever the
wake source, the state before and the clock. -/
theorem reset_activity_wakes (s : power_system) (source : wake_source_t) (now : Int)
    (fade_start_ok : Bool) (hi : s.pm.initialized = true) :
    (power_manager_reset_activity s source now true fade_start_ok).pm.current_state
      = POWER_STATE_ACTIVE := by
  unfold power_manager_reset_activity
  simp only [hi, Bool.not_true, Bool.false_eq_true, if_false]
  by_cases h : s.pm.current_state = POWER_STATE_ACTIVE
  · simp [h]
  · simp [h, (transition_to_state_locked _ POWER_STATE_ACTIVE fade_start_ok).1]

/-- A power manager forced to Off, then woken by touch 25 s after the last
activity: the state is Active at once. -/
theorem reset_activity_wakes_witness :
    (power_manager_force_state (power_manager_init power_system_zero
        { dim_timeout_ms := 10000, off_timeout_ms := 20000, sleep_timeout_ms := 30000,
          dim_brightness := 2, user_brightness := 80, enable_fade := true,
          fade_duration_ms := 1000 } 0 ⟨true, true, true, true⟩).2
        POWER_STATE_OFF true true).2.pm.current_state = POWER_STATE_OFF ∧
    (power_manager_reset_activity (power_manager_force_state (power_manager_init
        power_system_zero
        { dim_timeout_ms := 10000, off_timeout_ms := 20000, sleep_timeout_ms := 30000,
          dim_brightness := 2, user_brightness := 80, enable_fade := true,
          fade_duration_ms := 1000 } 0 ⟨true, true, true, true⟩).2
        POWER_STATE_OFF true true).2 WAKE_SOURCE_TOUCH 25000000 true true).pm.current_state
      = POWER_STATE_ACTIVE :=
  ⟨by decide, reset_activity_wakes _ WAKE_SOURCE_TOUCH 25000000 true (by decide)⟩

/-- C3. Right after `power_manager_reset_activity`, at the same clock reading,
`power_manager_get_idle_time_ms` returns 0, whatever the state and the idle time
before and whether or not the state lock was obtained. -/
theorem idle_zero_after_reset (s : power_system) (source : wake_source_t) (now : Int)
    (lock_ok fade_start_ok : Bool) :
    power_manager_get_idle_time_ms
      (power_manager_reset_activity s source now lock_ok fade_start_ok).pm now = 0 := by
  unfold power_manager_reset_activity
  by_cases hi : s.pm.initialized = true
  · simp only [hi, Bool.not_true, Bool.false_eq_true, if_false]
    have hz : to_u32 0 = 0 := rfl
    split
    · unfold power_manager_get_idle_time_ms
      rw [(transition_to_state_clock _ POWER_STATE_ACTIVE lock_ok fade_start_ok).1,
        (transition_to_state_clock _ POWER_STATE_ACTIVE lock_ok fade_start_ok).2]
      simp [hi, hz]
    · unfold power_manager_get_idle_time_ms
      simp [hi, hz]
  · unfold power_manager_get_idle_time_ms
    simp [hi]

/-! ### Callback registry -/

/-- A successful `power_manager_init` on the zero context leaves an initialised
manager with an empty registry. -/
theorem power_manager_init_fresh (cfg : power_config_t) (now : Int) (env : init_env)
    (h : (power_manager_init power_system_zero cfg now env).1 = ESP_OK) :
    (power_manager_init power_system_zero cfg now env).2.pm.initialized = true ∧
    (power_manager_init power_system_zero cfg now env).2.pm.callback_count = 0 := by
  revert h
  unfold power_manager_init power_system_zero power_ctx_zero display_power_init
    display_ctx_zero ESP_OK ESP_ERR_NO_MEM ESP_FAIL
  rcases env with ⟨a, b, c, d⟩
  cases a <;> cases b <;> cases c <;> cases d <;> cases cfg.enable_fade <;> simp

theorem register_step_count_le (ctx : power_context_t) (cb : power_state_cb_t) (lock_ok : Bool)
    (h : ctx.callback_count ≤ 5) :
    (power_manager_register_state_callback ctx cb lock_ok).2.callback_count ≤ 5 := by
  unfold power_manager_register_state_callback MAX_CALLBACKS
  split_ifs
  all_goals simp_all
  omega

theorem register_all_count_le (calls : List (power_state_cb_t × Bool)) (ctx : power_context_t)
    (h : ctx.callback_count ≤ 5) : (register_all ctx calls).2.callback_count ≤ 5 := by
  induction calls generalizing ctx with
  | nil => exact h
  | cons c rest ih =>
      obtain ⟨cb, lock_ok⟩ := c
      exact ih _ (register_step_count_le ctx cb lock_ok h)

theorem register_step_ok (ctx : power_context_t) (cb : power_state_cb_t)
    (hi : ctx.initialized = true) (hcb : cb ≠ 0) (hk : ctx.callback_count < 5) :
    (power_manager_register_state_callback ctx cb true).1 = ESP_OK ∧
    (power_manager_register_state_callback ctx cb true).2.initialized = true ∧
    (power_manager_register_state_callback ctx cb true).2.callback_count
      = ctx.callback_count + 1 := by
  have h5 : ¬ (5 ≤ ctx.callback_count) := by omega
  have hm : (ctx.callback_count + 1) % 256 = ctx.callback_count + 1 := by omega
  unfold power_manager_register_state_callback MAX_CALLBACKS
  simp [hi, hcb, h5, hm]

theorem register_step_full (ctx : power_context_t) (cb : power_state_cb_t)
    (hi : ctx.initialized = true) (hcb : cb ≠ 0) (hk : 5 ≤ ctx.callback_count) :
    power_manager_register_state_callback ctx cb true = (ESP_ERR_NO_MEM, ctx) := by
  unfold power_manager_register_state_callback MAX_CALLBACKS
  simp [hi, hcb, hk]

/-- Registration against a registry holding `k ≤ 5` callbacks: the next `5 - k`
calls succeed, all later ones report `ESP_ERR_NO_MEM` and change nothing. -/
theorem register_all_from (l : List power_state_cb_t) (ctx : power_context_t) (k : Nat)
    (hi : ctx.initialized = true) (hk : ctx.callback_count = k) (hk5 : k ≤ 5)
    (hnn : ∀ cb ∈ l, cb ≠ 0) :
    (register_all ctx (l.map fun cb => (cb, true))).1
      = List.replicate (min l.length (5 - k)) ESP_OK
          ++ List.replicate (l.length - (5 - k)) ESP_ERR_NO_MEM ∧
    (register_all ctx (l.map fun cb => (cb, true))).2.callback_count = min (k + l.length) 5 ∧
    (register_all ctx (l.map fun cb => (cb, true))).2
      = (register_all ctx ((l.take (5 - k)).map fun cb => (cb, true))).2 := by
  induction l generalizing ctx k with
  | nil =>
      refine ⟨by simp [register_all], ?_, by simp⟩
      show ctx.callback_count = min (k + 0) 5
      omega
  | cons cb l ih =>
      have hcb : cb ≠ 0 := hnn cb (List.mem_cons_self _ _)
      have hl : ∀ c ∈ l, c ≠ 0 := fun c hc => hnn c (List.mem_cons_of_mem _ hc)
      by_cases hlt : k < 5
      · obtain ⟨r1, r2, r3⟩ := register_step_ok ctx cb hi hcb (by omega)
        obtain ⟨i1, i2, i3⟩ := ih (power_manager_register_state_callback ctx cb true).2
          (k + 1) r2 (by omega) (by omega) hl
        have e1 : 5 - k = (5 - (k + 1)) + 1 := by omega
        have e2 : min (l.length + 1) (5 - (k + 1) + 1) = min l.length (5 - (k + 1)) + 1 := by
          omega
        have e3 : l.length + 1 - (5 - (k + 1) + 1) = l.length - (5 - (k + 1)) := by omega
        refine ⟨?_, ?_, ?_⟩
        · simp only [List.map_cons, register_all, List.length_cons]
          rw [r1, i1, e1, e2, e3, List.replicate_succ, List.cons_append]
        · simp only [List.map_cons, register_all, List.length_cons]
          rw [i2]
          omega
        · rw [e1, List.take_succ_cons]
          simp only [List.map_cons, register_all]
          exact i3
      · have hk' : k = 5 := by omega
        subst hk'
        have r := register_step_full ctx cb hi hcb (by omega)
        obtain ⟨i1, i2, i3⟩ := ih ctx 5 hi hk (le_refl _) hl
        refine ⟨?_, ?_, ?_⟩
        · simp only [List.map_cons, register_all, List.length_cons, r]
          rw [i1]
          simp [List.replicate_succ]
        · simp only [List.map_cons, register_all, r]
          rw [i2]
          omega
        · simp only [List.map_cons, register_all, r]
          rw [i3]
          simp [register_all]

/-- C4. On a freshly initialised power manager, registering non-NULL callbacks
one after the other with the state lock obtained each time: the first five calls
return `ESP_OK`, every later call returns `ESP_ERR_NO_MEM` and leaves the context
as the fifth call left it, and the stored count is the number of calls capped at
5.  Under any sequence of registration calls at all (NULL callbacks and lock
timeouts included) the stored count never exceeds 5. -/
theorem register_callback_capacity (cfg : power_config_t) (now : Int) (env : init_env)
    (cbs : List power_state_cb_t)
    (hinit : (power_manager_init power_system_zero cfg now env).1 = ESP_OK)
    (hnn : ∀ cb ∈ cbs, cb ≠ 0) :
    (register_all (power_manager_init power_system_zero cfg now env).2.pm
        (cbs.map fun cb => (cb, true))).1
      = List.replicate (min cbs.length 5) ESP_OK
          ++ List.replicate (cbs.length - 5) ESP_ERR_NO_MEM ∧
    (register_all (power_manager_init power_system_zero cfg now env).2.pm
        (cbs.map fun cb => (cb, true))).2
      = (register_all (power_manager_init power_system_zero cfg now env).2.pm
          ((cbs.take 5).map fun cb => (cb, true))).2 ∧
    (register_all (power_manager_init power_system_zero cfg now env).2.pm
        (cbs.map fun cb => (cb, true))).2.callback_count = min cbs.length 5 ∧
    (∀ calls : List (power_state_cb_t × Bool),
      (register_all (power_manager_init power_system_zero cfg now env).2.pm
        calls).2.callback_count ≤ 5) := by
  obtain ⟨h1, h2⟩ := power_manager_init_fresh cfg now env hinit
  obtain ⟨r1, r2, r3⟩ := register_all_from cbs _ 0 h1 h2 (by omega) hnn
  refine ⟨r1, r3, ?_, ?_⟩
  · rw [r2]
    omega
  · intro calls
    exact register_all_count_le calls _ (by omega)

/-- Seven registrations after a successful init: five successes, then two
`ESP_ERR_NO_MEM`, and the count stays 5. -/
theorem register_callback_capacity_witness :
    (register_all (power_manager_init power_system_zero
        { dim_timeout_ms := 10000, off_timeout_ms := 20000, sleep_timeout_ms := 30000,
          dim_brightness := 2, user_brightness := 80, enable_fade := true,
          fade_duration_ms := 1000 } 0 ⟨true, true, true, true⟩).2.pm
        ([11, 12, 13, 14, 15, 16, 17].map fun cb => (cb, true))).1
      = [ESP_OK, ESP_OK, ESP_OK, ESP_OK, ESP_OK, ESP_ERR_NO_MEM, ESP_ERR_NO_MEM] ∧
    (register_all (power_manager_init power_system_zero
        { dim_timeout_ms := 10000, off_timeout_ms := 20000, sleep_timeout_ms := 30000,
          dim_brightness := 2, user_brightness := 80, enable_fade := true,
          fade_duration_ms := 1000 } 0 ⟨true, true, true, true⟩).2.pm
        ([11, 12, 13, 14, 15, 16, 17].map fun cb => (cb, true))).2.callback_count = 5 :=
  have h := register_callback_capacity
    { dim_timeout_ms := 10000, off_timeout_ms := 20000, sleep_timeout_ms := 30000,
      dim_brightness := 2, user_brightness := 80, enable_fade := true,
      fade_duration_ms := 1000 } 0 ⟨true, true, true, true⟩ [11, 12, 13, 14, 15, 16, 17]
    (by decide) (by decide)
  ⟨h.1, h.2.2.1⟩

/-! ## Motion sensor: WoM interrupt switch -/

/-- Bits of `(x | 0x50) & (0xFF ^ 0x10)` for a byte `x`. -/
theorem ctrl1_round_trip_bits (x : Nat) (hx : x < 256) :
    (∀ i, i ≠ 4 → i ≠ 6 →
      ((x ||| 0x50) &&& (0xFF ^^^ 0x10)).testBit i = x.testBit i) ∧
    ((x ||| 0x50) &&& (0xFF ^^^ 0x10)).testBit 6 = true ∧
    ((x ||| 0x50) &&& (0xFF ^^^ 0x10)).testBit 4 = false := by
  refine ⟨?_, ?_, ?_⟩
  · intro i h4 h6
    by_cases hi : i < 8
    · simp only [Nat.testBit_and, Nat.testBit_or]
      interval_cases i
      all_goals first
        | exact absurd rfl h4
        | exact absurd rfl h6
        | (cases x.testBit _ <;> decide)
    · have hp : (2 : Nat) ^ 8 ≤ 2 ^ i := Nat.pow_le_pow_right (by decide) (by omega)
      have hy : (x ||| 0x50) &&& (0xFF ^^^ 0x10) < 2 ^ i :=
        lt_of_le_of_lt Nat.and_le_right (lt_of_lt_of_le (by decide) hp)
      rw [Nat.testBit_lt_two_pow hy, Nat.testBit_lt_two_pow (lt_of_lt_of_le hx hp)]
  · simp only [Nat.testBit_and, Nat.testBit_or]
    cases x.testBit 6 <;> decide
  · simp only [Nat.testBit_and, Nat.testBit_or]
    cases x.testBit 4 <;> decide

theorem enable_wom_interrupt_ok (bus : qmi_bus) (hr : ∀ n, bus.result n = ESP_OK)
    (hd : ∀ n, bus.driven n 0x02 = none) :
    (bsp_qmi8658_enable_wom_interrupt bus).1 = ESP_OK ∧
    (bsp_qmi8658_enable_wom_interrupt bus).2.regs
      = (fun r => if r = 0x02 then (bus.regs 0x02 % 256 ||| 0x50) % 256 else bus.regs r) ∧
    (bsp_qmi8658_enable_wom_interrupt bus).2.result = bus.result ∧
    (bsp_qmi8658_enable_wom_interrupt bus).2.driven = bus.driven := by
  unfold bsp_qmi8658_enable_wom_interrupt bsp_qmi8658_reg_read bsp_qmi8658_reg_write_byte
  simp [hr, hd]

theorem disable_wom_interrupt_ok (bus : qmi_bus) (hr : ∀ n, bus.result n = ESP_OK)
    (hd : ∀ n, bus.driven n 0x02 = none) :
    (bsp_qmi8658_disable_wom_interrupt bus).1 = ESP_OK ∧
    (bsp_qmi8658_disable_wom_interrupt bus).2.regs
      = (fun r => if r = 0x02 then (bus.regs 0x02 % 256 &&& (0xFF ^^^ 0x10)) % 256
          else bus.regs r) := by
  unfold bsp_qmi8658_disable_wom_interrupt bsp_qmi8658_reg_read bsp_qmi8658_reg_write_byte
  simp [hr, hd]

/-- C10, as stated, fails: with CTRL1 holding `0x00`, after enable then disable
the register holds a value whose bit 6 differs from bit 6 of `0x00`. -/
theorem wom_round_trip_counterexample :
    ¬ (∀ i, i ≠ 4 →
        ((bsp_qmi8658_disable_wom_interrupt
            (bsp_qmi8658_enable_wom_interrupt (bus_with_ctrl1 0)).2).2.regs 0x02).testBit i
          = (0 : Nat).testBit i) :=
  fun h => absurd (h 6 (by decide)) (by decide)

/-- C10, amended. For a byte `x` in CTRL1 (`0x02`), on a bus that never fails and
with CTRL1 an ordinary read/write register, `bsp_qmi8658_enable_wom_interrupt`
followed by `bsp_qmi8658_disable_wom_interrupt` both succeed and leave CTRL1 equal
to `x` on every bit other than bits 4 and 6, with bit 6 (address auto-increment)
set and bit 4 clear; if bit 6 of `x` was set, only bit 4 can differ.  No other
register changes. -/
theorem wom_round_trip (bus : qmi_bus) (hr : ∀ n, bus.result n = ESP_OK)
    (hd : ∀ n, bus.driven n 0x02 = none) (hx : bus.regs 0x02 < 256) :
    (bsp_qmi8658_enable_wom_interrupt bus).1 = ESP_OK ∧
    (bsp_qmi8658_disable_wom_interrupt (bsp_qmi8658_enable_wom_interrupt bus).2).1 = ESP_OK ∧
    (∀ i, i ≠ 4 → i ≠ 6 →
      ((bsp_qmi8658_disable_wom_interrupt
          (bsp_qmi8658_enable_wom_interrupt bus).2).2.regs 0x02).testBit i
        = (bus.regs 0x02).testBit i) ∧
    ((bsp_qmi8658_disable_wom_interrupt
        (bsp_qmi8658_enable_wom_interrupt bus).2).2.regs 0x02).testBit 6 = true ∧
    ((bsp_qmi8658_disable_wom_interrupt
        (bsp_qmi8658_enable_wom_interrupt bus).2).2.regs 0x02).testBit 4 = false ∧
    ((bus.regs 0x02).testBit 6 = true → ∀ i, i ≠ 4 →
      ((bsp_qmi8658_disable_wom_interrupt
          (bsp_qmi8658_enable_wom_interrupt bus).2).2.regs 0x02).testBit i
        = (bus.regs 0x02).testBit i) ∧
    (∀ r, r ≠ 0x02 →
      (bsp_qmi8658_disable_wom_interrupt (bsp_qmi8658_enable_wom_interrupt bus).2).2.regs r
        = bus.regs r) := by
  obtain ⟨e1, e2, e3, e4⟩ := enable_wom_interrupt_ok bus hr hd
  obtain ⟨d1, d2⟩ := disable_wom_interrupt_ok (bsp_qmi8658_enable_wom_interrupt bus).2
    (by rw [e3]; exact hr) (by rw [e4]; exact hd)
  have hor : bus.regs 0x02 ||| 0x50 < 256 :=
    Nat.or_lt_two_pow (show bus.regs 0x02 < 2 ^ 8 from hx) (by decide)
  have hand : (bus.regs 0x02 ||| 0x50) &&& (0xFF ^^^ 0x10) ≤ 0xFF ^^^ 0x10 := Nat.and_le_right
  have hval : (bsp_qmi8658_disable_wom_interrupt
      (bsp_qmi8658_enable_wom_interrupt bus).2).2.regs 0x02
        = (bus.regs 0x02 ||| 0x50) &&& (0xFF ^^^ 0x10) := by
    rw [d2, e2]
    simp only [if_true]
    rw [Nat.mod_eq_of_lt hx, Nat.mod_eq_of_lt hor, Nat.mod_eq_of_lt hor]
    exact Nat.mod_eq_of_lt (lt_of_le_of_lt hand (by decide))
  obtain ⟨b1, b2, b3⟩ := ctrl1_round_trip_bits (bus.regs 0x02) hx
  refine ⟨e1, d1, ?_, ?_, ?_, ?_, ?_⟩
  · rw [hval]; exact b1
  · rw [hval]; exact b2
  · rw [hval]; exact b3
  · intro h6 i h4
    rw [hval]
    by_cases hi : i = 6
    · rw [hi, b2, h6]
    · exact b1 i h4 hi
  · intro r hr2
    rw [d2, e2]
    simp [hr2]

/-- CTRL1 pre-loaded with `0xA5`: the round trip ends on `0xE5`; bits 0-3, 5 and 7
are as before, bit 6 is now set, bit 4 is clear. -/
theorem wom_round_trip_witness :
    (bsp_qmi8658_disable_wom_interrupt
        (bsp_qmi8658_enable_wom_interrupt (bus_with_ctrl1 0xA5)).2).2.regs 0x02 = 0xE5 ∧
    ((bsp_qmi8658_disable_wom_interrupt
        (bsp_qmi8658_enable_wom_interrupt (bus_with_ctrl1 0xA5)).2).2.regs 0x02).testBit 6
      = true :=
  ⟨by decide,
   (wom_round_trip (bus_with_ctrl1 0xA5) (fun _ => rfl) (fun _ => rfl) (by decide)).2.2.2.1⟩

/-! ## Motion sensor: command handshake and WoM configuration -/

/-- What one register write does to the bus: its result code is the one the bus
assigns to this transfer, and the transfer is appended to the log. -/
theorem reg_write_spec (bus : qmi_bus) (reg data : Nat) :
    (bsp_qmi8658_reg_write_byte bus reg data).1 = bus.result bus.log.length ∧
    (bsp_qmi8658_reg_write_byte bus reg data).2.log
      = bus.log ++ [bus_txn.write reg (data % 256)] ∧
    (bsp_qmi8658_reg_write_byte bus reg data).2.result = bus.result ∧
    (bsp_qmi8658_reg_write_byte bus reg data).2.driven = bus.driven ∧
    (∀ a, a ≠ reg → (bsp_qmi8658_reg_write_byte bus reg data).2.regs a = bus.regs a) := by
  unfold bsp_qmi8658_reg_write_byte
  by_cases h : bus.result bus.log.length = ESP_OK
  · simp [h]
    intro a ha
    simp [ha]
  · simp [h]

/-- What one register read does to the bus. -/
theorem reg_read_spec (bus : qmi_bus) (reg : Nat) :
    (bsp_qmi8658_reg_read bus reg).1 = bus.result bus.log.length ∧
    (bsp_qmi8658_reg_read bus reg).2.2.log = bus.log ++ [bus_txn.read reg] ∧
    (bsp_qmi8658_reg_read bus reg).2.2.result = bus.result ∧
    (bsp_qmi8658_reg_read bus reg).2.2.driven = bus.driven ∧
    (bsp_qmi8658_reg_read bus reg).2.2.regs = bus.regs ∧
    (bus.result bus.log.length = ESP_OK →
      (bsp_qmi8658_reg_read bus reg).2.1 = sensor_value bus bus.log.length reg) := by
  unfold bsp_qmi8658_reg_read sensor_value
  by_cases h : bus.result bus.log.length = ESP_OK
  · simp [h]
  · simp [h]

theorem sensor_value_congr (b1 b2 : qmi_bus) (n reg : Nat)
    (hr : b1.regs reg = b2.regs reg) (hd : b1.driven = b2.driven) :
    sensor_value b1 n reg = sensor_value b2 n reg := by
  unfold sensor_value
  rw [hr, hd]

/-- C11. If each of the 100 polls of the status-interrupt register (`0x2D`)
succeeds and shows the command-done bit (bit 7) clear, `wait_ctrl9_completion`
returns `ESP_ERR_TIMEOUT` and the bus is as before except that exactly 100 reads
of `0x2D` were issued: no write, in particular no acknowledge to `0x0A`, occurs. -/
theorem wait_ctrl9_completion_timeout (bus : qmi_bus)
    (h : ∀ j, j < 100 → bus.result (bus.log.length + j) = ESP_OK ∧
      sensor_value bus (bus.log.length + j) 0x2D &&& 0x80 = 0) :
    wait_ctrl9_completion bus
      = (ESP_ERR_TIMEOUT,
         { bus with log := bus.log ++ List.replicate 100 (bus_txn.read 0x2D) }) ∧
    (wait_ctrl9_completion bus).2.regs = bus.regs ∧
    (∀ reg v, bus_txn.write reg v ∉
      (wait_ctrl9_completion bus).2.log.drop bus.log.length) := by
  have key : ∀ (n : Nat) (b : qmi_bus),
      (∀ j, j < n → b.result (b.log.length + j) = ESP_OK ∧
        sensor_value b (b.log.length + j) 0x2D &&& 0x80 = 0) →
      wait_ctrl9_loop n b
        = (ESP_ERR_TIMEOUT, { b with log := b.log ++ List.replicate n (bus_txn.read 0x2D) }) := by
    intro n
    induction n with
    | zero =>
        intro b _
        simp [wait_ctrl9_loop]
    | succ n ih =>
        intro b hb
        obtain ⟨r1, r2, r3, r4, r5, r6⟩ := reg_read_spec b 0x2D
        have h0 := hb 0 (by omega)
        rw [Nat.add_zero] at h0
        have hv := r6 h0.1
        have hnext : ∀ j, j < n →
            (bsp_qmi8658_reg_read b 0x2D).2.2.result
              ((bsp_qmi8658_reg_read b 0x2D).2.2.log.length + j) = ESP_OK ∧
            sensor_value (bsp_qmi8658_reg_read b 0x2D).2.2
              ((bsp_qmi8658_reg_read b 0x2D).2.2.log.length + j) 0x2D &&& 0x80 = 0 := by
          intro j hj
          have := hb (j + 1) (by omega)
          rw [r3, r2, sensor_value_congr _ b _ _ (by rw [r5]) r4]
          simp only [List.length_append, List.length_singleton]
          rw [show b.log.length + 1 + j = b.log.length + (j + 1) by omega]
          exact this
        have hrec := ih _ hnext
        rw [wait_ctrl9_loop]
        simp only [r1, h0.1, hv, h0.2, bne_self_eq_false, Bool.false_eq_true, if_false]
        rw [hrec, r2, r3, r4, r5]
        simp [List.replicate_succ]
  have hw := key 100 bus h
  unfold wait_ctrl9_completion
  rw [hw]
  refine ⟨rfl, rfl, ?_⟩
  intro reg v
  simp

/-- One hundred polls of a status register that never shows command done. -/
theorem wait_ctrl9_completion_timeout_witness :
    (wait_ctrl9_completion (scripted_bus none ESP_FAIL 1000)).1 = ESP_ERR_TIMEOUT ∧
    (wait_ctrl9_completion (scripted_bus none ESP_FAIL 1000)).2.log
      = List.replicate 100 (bus_txn.read 0x2D) :=
  have h := wait_ctrl9_completion_timeout (scripted_bus none ESP_FAIL 1000) (by decide)
  ⟨congrArg Prod.fst h.1, congrArg (fun r => r.2.log) h.1⟩

/-- Every way the poll loop can end, with `n` iterations allowed: the budget runs
out, a poll fails, or a poll sees command done and the acknowledge is written. -/
theorem wait_ctrl9_loop_cases (n : Nat) (b : qmi_bus) :
    (wait_ctrl9_loop n b).2.result = b.result ∧
    (wait_ctrl9_loop n b).2.driven = b.driven ∧
    (((∀ j, j < n → b.result (b.log.length + j) = ESP_OK ∧
          sensor_value b (b.log.length + j) 0x2D &&& 0x80 = 0) ∧
        (wait_ctrl9_loop n b).1 = ESP_ERR_TIMEOUT ∧
        (wait_ctrl9_loop n b).2.log = b.log ++ List.replicate n (bus_txn.read 0x2D)) ∨
     (∃ p, p < n ∧
        (∀ j, j < p → b.result (b.log.length + j) = ESP_OK ∧
          sensor_value b (b.log.length + j) 0x2D &&& 0x80 = 0) ∧
        b.result (b.log.length + p) ≠ ESP_OK ∧
        (wait_ctrl9_loop n b).1 = b.result (b.log.length + p) ∧
        (wait_ctrl9_loop n b).2.log
          = b.log ++ List.replicate (p + 1) (bus_txn.read 0x2D)) ∨
     (∃ p, p < n ∧
        (∀ j, j < p → b.result (b.log.length + j) = ESP_OK ∧
          sensor_value b (b.log.length + j) 0x2D &&& 0x80 = 0) ∧
        b.result (b.log.length + p) = ESP_OK ∧
        sensor_value b (b.log.length + p) 0x2D &&& 0x80 ≠ 0 ∧
        (wait_ctrl9_loop n b).1 = b.result (b.log.length + p + 1) ∧
        (wait_ctrl9_loop n b).2.log
          = b.log ++ List.replicate (p + 1) (bus_txn.read 0x2D)
              ++ [bus_txn.write 0x0A 0x00])) := by
  induction n generalizing b with
  | zero =>
      refine ⟨rfl, rfl, Or.inl ⟨fun j hj => absurd hj (Nat.not_lt_zero j), rfl, ?_⟩⟩
      simp [wait_ctrl9_loop]
  | succ n ih =>
      obtain ⟨r1, r2, r3, r4, r5, r6⟩ := reg_read_spec b 0x2D
      by_cases h0 : b.result b.log.length = ESP_OK
      · have hv := r6 h0
        by_cases hbit : sensor_value b b.log.length 0x2D &&& 0x80 = 0
        · -- the poll shows the command still pending: the loop goes on
          have heq : wait_ctrl9_loop (n + 1) b
              = wait_ctrl9_loop n (bsp_qmi8658_reg_read b 0x2D).2.2 := by
            rw [wait_ctrl9_loop]
            simp only [r1, h0, hv, hbit, bne_self_eq_false, Bool.false_eq_true, if_false]
          have hlen : (bsp_qmi8658_reg_read b 0x2D).2.2.log.length = b.log.length + 1 := by
            rw [r2]; simp
          have hsv : ∀ k, sensor_value (bsp_qmi8658_reg_read b 0x2D).2.2 k 0x2D
              = sensor_value b k 0x2D :=
            fun k => sensor_value_congr _ b k _ (by rw [r5]) r4
          have hshift : ∀ p, (∀ j, j < p → b.result (b.log.length + 1 + j) = ESP_OK ∧
                sensor_value b (b.log.length + 1 + j) 0x2D &&& 0x80 = 0) →
              ∀ j, j < p + 1 → b.result (b.log.length + j) = ESP_OK ∧
                sensor_value b (b.log.length + j) 0x2D &&& 0x80 = 0 := by
            intro p hp j hj
            cases j with
            | zero => exact ⟨h0, hbit⟩
            | succ j =>
                have := hp j (by omega)
                rwa [show b.log.length + (j + 1) = b.log.length + 1 + j by omega]
          obtain ⟨i1, i2, i3⟩ := ih (bsp_qmi8658_reg_read b 0x2D).2.2
          simp only [r3, hlen, hsv] at i1 i2 i3
          rw [heq]
          refine ⟨i1, i2.trans r4, ?_⟩
          rcases i3 with ⟨ha, hb, hc⟩ | ⟨p, hp, ha, hb, hc, hd⟩ | ⟨p, hp, ha, hb, hb2, hc, hd⟩
          · refine Or.inl ⟨hshift n ha, hb, ?_⟩
            rw [hc, r2]
            simp [List.replicate_succ]
          · refine Or.inr (Or.inl ⟨p + 1, by omega, hshift p ha, ?_, ?_, ?_⟩)
            · rwa [show b.log.length + (p + 1) = b.log.length + 1 + p by omega]
            · rw [hc, show b.log.length + (p + 1) = b.log.length + 1 + p by omega]
            · rw [hd, r2]
              simp [List.replicate_succ]
          · refine Or.inr (Or.inr ⟨p + 1, by omega, hshift p ha, ?_, ?_, ?_, ?_⟩)
            · rwa [show b.log.length + (p + 1) = b.log.length + 1 + p by omega]
            · rwa [show b.log.length + (p + 1) = b.log.length + 1 + p by omega]
            · rw [hc, show b.log.length + (p + 1) + 1 = b.log.length + 1 + p + 1 by omega]
            · rw [hd, r2]
              simp [List.replicate_succ]
        · -- the poll shows command done: the acknowledge is written
          have heq : wait_ctrl9_loop (n + 1) b
              = bsp_qmi8658_reg_write_byte (bsp_qmi8658_reg_read b 0x2D).2.2 0x0A
                  CTRL_CMD_ACK := by
            rw [wait_ctrl9_loop]
            simp only [r1, h0, hv, bne_self_eq_false, Bool.false_eq_true, if_false]
            simp [hbit]
          obtain ⟨w1, w2, w3, w4, _⟩ :=
            reg_write_spec (bsp_qmi8658_reg_read b 0x2D).2.2 0x0A CTRL_CMD_ACK
          rw [heq]
          refine ⟨w3.trans r3, w4.trans r4, Or.inr (Or.inr ⟨0, by omega, ?_, ?_, ?_, ?_, ?_⟩)⟩
          · intro j hj
            exact absurd hj (Nat.not_lt_zero j)
          · simpa using h0
          · simpa using hbit
          · rw [w1, r3, r2]
            simp
          · rw [w2, r2]
            simp [CTRL_CMD_ACK]
      · -- the poll itself fails
        have heq : wait_ctrl9_loop (n + 1) b
            = ((bsp_qmi8658_reg_read b 0x2D).1, (bsp_qmi8658_reg_read b 0x2D).2.2) := by
          rw [wait_ctrl9_loop]
          simp [r1, h0]
        rw [heq]
        refine ⟨r3, r4, Or.inr (Or.inl ⟨0, by omega, ?_, ?_, ?_, ?_⟩)⟩
        · intro j hj
          exact absurd hj (Nat.not_lt_zero j)
        · simpa using h0
        · simpa using r1
        · rw [r2]
          simp

/-- State of the bus after the first `k ≤ 5` setup writes of
`bsp_qmi8658_configure_wom` when all of them succeeded, as a step lemma: one more
write extends the log by the next setup entry. -/
theorem setup_write_step (bus q : qmi_bus) (l : List bus_txn) (reg data : Nat)
    (hl : q.log = bus.log ++ l) (hr : q.result = bus.result) (hd : q.driven = bus.driven)
    (hs : q.regs 0x2D = bus.regs 0x2D) (hreg : reg ≠ 0x2D) :
    (bsp_qmi8658_reg_write_byte q reg data).1 = bus.result (bus.log.length + l.length) ∧
    (bsp_qmi8658_reg_write_byte q reg data).2.log
      = bus.log ++ (l ++ [bus_txn.write reg (data % 256)]) ∧
    (bsp_qmi8658_reg_write_byte q reg data).2.result = bus.result ∧
    (bsp_qmi8658_reg_write_byte q reg data).2.driven = bus.driven ∧
    (bsp_qmi8658_reg_write_byte q reg data).2.regs 0x2D = bus.regs 0x2D := by
  obtain ⟨w1, w2, w3, w4, w5⟩ := reg_write_spec q reg data
  refine ⟨?_, ?_, w3.trans hr, w4.trans hd, ?_⟩
  · rw [w1, hr, hl]
    simp
  · rw [w2, hl]
    simp
  · rw [w5 0x2D (fun h => hreg h.symm), hs]

/-- Every way `bsp_qmi8658_configure_wom` can run on a non-NULL configuration:
one of the five setup writes fails; or all succeed and the poll loop times out, a
poll fails, the acknowledge fails, or the final enable write is reached.  In each
case the result code and the exact list of transfers issued are given. -/
theorem configure_wom_cases (bus : qmi_bus) (cfg : qmi8658_wom_config_t) :
    (bsp_qmi8658_configure_wom bus (some cfg)).2.result = bus.result ∧
    (bsp_qmi8658_configure_wom bus (some cfg)).2.driven = bus.driven ∧
    ((∃ j, j < 5 ∧ (∀ i, i < j → bus.result (bus.log.length + i) = ESP_OK) ∧
        bus.result (bus.log.length + j) ≠ ESP_OK ∧
        (bsp_qmi8658_configure_wom bus (some cfg)).1 = bus.result (bus.log.length + j) ∧
        (bsp_qmi8658_configure_wom bus (some cfg)).2.log = bus.log ++ (wom_setup_writes cfg).take (j + 1)) ∨
     ((∀ i, i < 5 → bus.result (bus.log.length + i) = ESP_OK) ∧
      ((polls_pending bus (bus.log.length + 5) 100 ∧
          (bsp_qmi8658_configure_wom bus (some cfg)).1 = ESP_ERR_TIMEOUT ∧
          (bsp_qmi8658_configure_wom bus (some cfg)).2.log
            = bus.log ++ (wom_setup_writes cfg ++ List.replicate 100 (bus_txn.read 0x2D))) ∨
       (∃ p, p < 100 ∧ polls_pending bus (bus.log.length + 5) p ∧
          bus.result (bus.log.length + 5 + p) ≠ ESP_OK ∧
          (bsp_qmi8658_configure_wom bus (some cfg)).1 = bus.result (bus.log.length + 5 + p) ∧
          (bsp_qmi8658_configure_wom bus (some cfg)).2.log
            = bus.log ++ (wom_setup_writes cfg
                ++ List.replicate (p + 1) (bus_txn.read 0x2D))) ∨
       (∃ p, p < 100 ∧ polls_pending bus (bus.log.length + 5) p ∧
          bus.result (bus.log.length + 5 + p) = ESP_OK ∧
          sensor_value bus (bus.log.length + 5 + p) 0x2D &&& 0x80 ≠ 0 ∧
          bus.result (bus.log.length + 5 + p + 1) ≠ ESP_OK ∧
          (bsp_qmi8658_configure_wom bus (some cfg)).1 = bus.result (bus.log.length + 5 + p + 1) ∧
          (bsp_qmi8658_configure_wom bus (some cfg)).2.log
            = bus.log ++ (wom_setup_writes cfg
                ++ List.replicate (p + 1) (bus_txn.read 0x2D)
                ++ [bus_txn.write 0x0A 0x00])) ∨
       (∃ p, p < 100 ∧ polls_pending bus (bus.log.length + 5) p ∧
          bus.result (bus.log.length + 5 + p) = ESP_OK ∧
          sensor_value bus (bus.log.length + 5 + p) 0x2D &&& 0x80 ≠ 0 ∧
          bus.result (bus.log.length + 5 + p + 1) = ESP_OK ∧
          (bsp_qmi8658_configure_wom bus (some cfg)).1 = bus.result (bus.log.length + 5 + p + 2) ∧
          (bsp_qmi8658_configure_wom bus (some cfg)).2.log
            = bus.log ++ (wom_setup_writes cfg
                ++ List.replicate (p + 1) (bus_txn.read 0x2D)
                ++ [bus_txn.write 0x0A 0x00, bus_txn.write 0x08 0x01]))))) := by
  obtain ⟨a1, a2, a3, a4, a5⟩ :=
    setup_write_step bus bus [] 0x08 0x00 (by simp) rfl rfl rfl (by decide)
  generalize h1 : bsp_qmi8658_reg_write_byte bus 0x08 0x00 = q1 at a1 a2 a3 a4 a5
  obtain ⟨b1, b2, b3, b4, b5⟩ :=
    setup_write_step bus q1.2 _ 0x03 ((cfg.odr_mode ||| 0x05) % 256) a2 a3 a4 a5 (by decide)
  generalize h2 : bsp_qmi8658_reg_write_byte q1.2 0x03 ((cfg.odr_mode ||| 0x05) % 256) = q2
    at b1 b2 b3 b4 b5
  obtain ⟨c1, c2, c3, c4, c5⟩ :=
    setup_write_step bus q2.2 _ 0x0B (cfg.threshold_mg % 256) b2 b3 b4 b5 (by decide)
  generalize h3 : bsp_qmi8658_reg_write_byte q2.2 0x0B (cfg.threshold_mg % 256) = q3
    at c1 c2 c3 c4 c5
  obtain ⟨d1, d2, d3, d4, d5⟩ :=
    setup_write_step bus q3.2 _ 0x0C
      ((((cfg.blanking_samples &&& 0x03) <<< 6) ||| (0x01 <<< 4) ||| 0x00) % 256)
      c2 c3 c4 c5 (by decide)
  generalize h4 : bsp_qmi8658_reg_write_byte q3.2 0x0C
      ((((cfg.blanking_samples &&& 0x03) <<< 6) ||| (0x01 <<< 4) ||| 0x00) % 256) = q4
    at d1 d2 d3 d4 d5
  obtain ⟨e1, e2, e3, e4, e5⟩ :=
    setup_write_step bus q4.2 _ 0x0A CTRL_CMD_WRITE_WOM_SETTING d2 d3 d4 d5 (by decide)
  generalize h5 : bsp_qmi8658_reg_write_byte q4.2 0x0A CTRL_CMD_WRITE_WOM_SETTING = q5
    at e1 e2 e3 e4 e5
  have hsetup : q5.2.log = bus.log ++ wom_setup_writes cfg := by
    rw [e2]
    simp [wom_setup_writes, CTRL_CMD_WRITE_WOM_SETTING]
  have hlen5 : q5.2.log.length = bus.log.length + 5 := by
    rw [hsetup]
    simp [wom_setup_writes]
  have hsv : ∀ k, sensor_value q5.2 k 0x2D = sensor_value bus k 0x2D :=
    fun k => sensor_value_congr _ bus k _ e5 e4
  obtain ⟨f1, f2, f3⟩ := wait_ctrl9_loop_cases 100 q5.2
  simp only [e3, hlen5, hsv] at f1 f3
  simp only [hsetup] at f3
  generalize h6 : wait_ctrl9_loop 100 q5.2 = q6 at f1 f2 f3
  obtain ⟨g1, g2, g3, g4, -⟩ := reg_write_spec q6.2 0x08 0x01
  generalize h7 : bsp_qmi8658_reg_write_byte q6.2 0x08 0x01 = q7 at g1 g2 g3 g4
  have hconf : (bsp_qmi8658_configure_wom bus (some cfg))
      = if q1.1 != ESP_OK then q1 else if q2.1 != ESP_OK then q2
        else if q3.1 != ESP_OK then q3 else if q4.1 != ESP_OK then q4
        else if q5.1 != ESP_OK then q5 else if q6.1 != ESP_OK then q6
        else if q7.1 != ESP_OK then q7 else (ESP_OK, q7.2) := by
    unfold bsp_qmi8658_configure_wom wait_ctrl9_completion
    simp only [h1, h2, h3, h4, h5, h6, h7]
  simp only [List.length_nil, List.nil_append, List.length_append, List.length_singleton,
    Nat.add_zero, Nat.zero_add] at a1 b1 c1 d1 e1
  rw [hconf]
  by_cases k1 : bus.result bus.log.length = ESP_OK
  swap
  · rw [if_pos (by rw [a1]; exact bne_iff_ne.2 k1)]
    refine ⟨a3, a4, Or.inl ⟨0, by omega, fun i hi => absurd hi (Nat.not_lt_zero i), k1, a1, ?_⟩⟩
    rw [a2]
    simp [wom_setup_writes]
  rw [if_neg (by rw [a1]; simp [k1])]
  by_cases k2 : bus.result (bus.log.length + 1) = ESP_OK
  swap
  · rw [if_pos (by rw [b1]; exact bne_iff_ne.2 k2)]
    refine ⟨b3, b4, Or.inl ⟨1, by omega, ?_, k2, b1, ?_⟩⟩
    · intro i hi
      interval_cases i
      exact k1
    · rw [b2]
      simp [wom_setup_writes]
  rw [if_neg (by rw [b1]; simp [k2])]
  by_cases k3 : bus.result (bus.log.length + 1 + 1) = ESP_OK
  swap
  · rw [if_pos (by rw [c1]; exact bne_iff_ne.2 k3)]
    refine ⟨c3, c4, Or.inl ⟨2, by omega, ?_, k3, c1, ?_⟩⟩
    · intro i hi
      interval_cases i
      · exact k1
      · exact k2
    · rw [c2]
      simp [wom_setup_writes]
  rw [if_neg (by rw [c1]; simp [k3])]
  by_cases k4 : bus.result (bus.log.length + 1 + 1 + 1) = ESP_OK
  swap
  · rw [if_pos (by rw [d1]; exact bne_iff_ne.2 k4)]
    refine ⟨d3, d4, Or.inl ⟨3, by omega, ?_, k4, d1, ?_⟩⟩
    · intro i hi
      interval_cases i
      · exact k1
      · exact k2
      · exact k3
    · rw [d2]
      simp [wom_setup_writes]
  rw [if_neg (by rw [d1]; simp [k4])]
  by_cases k5 : bus.result (bus.log.length + 1 + 1 + 1 + 1) = ESP_OK
  swap
  · rw [if_pos (by rw [e1]; exact bne_iff_ne.2 k5)]
    refine ⟨e3, e4, Or.inl ⟨4, by omega, ?_, k5, e1, ?_⟩⟩
    · intro i hi
      interval_cases i
      · exact k1
      · exact k2
      · exact k3
      · exact k4
    · rw [e2]
      simp [wom_setup_writes, CTRL_CMD_WRITE_WOM_SETTING]
  rw [if_neg (by rw [e1]; simp [k5])]
  have hall : ∀ i, i < 5 → bus.result (bus.log.length + i) = ESP_OK := by
    intro i hi
    interval_cases i
    · exact k1
    · exact k2
    · exact k3
    · exact k4
    · exact k5
  have hq7 : (if q7.1 != ESP_OK then q7 else (ESP_OK, q7.2)) = q7 := by
    by_cases h : q7.1 = ESP_OK
    · rw [if_neg (by simp [h])]
      exact Prod.ext h.symm rfl
    · rw [if_pos (bne_iff_ne.2 h)]
  rw [hq7]
  rcases f3 with ⟨ha, hb, hc⟩ | ⟨p, hp, ha, hb, hc, hd⟩ | ⟨p, hp, ha, hb, hb2, hc, hd⟩
  · rw [if_pos (by rw [hb]; decide)]
    exact ⟨f1, f2.trans e4, Or.inr ⟨hall, Or.inl ⟨ha, hb, by rw [hc, List.append_assoc]⟩⟩⟩
  · rw [if_pos (by rw [hc]; exact bne_iff_ne.2 hb)]
    exact ⟨f1, f2.trans e4,
      Or.inr ⟨hall, Or.inr (Or.inl ⟨p, hp, ha, hb, hc, by rw [hd, List.append_assoc]⟩)⟩⟩
  · by_cases k6 : bus.result (bus.log.length + 5 + p + 1) = ESP_OK
    · rw [if_neg (by rw [hc]; simp [k6])]
      refine ⟨g3.trans f1, g4.trans (f2.trans e4),
        Or.inr ⟨hall, Or.inr (Or.inr (Or.inr ⟨p, hp, ha, hb, hb2, k6, ?_, ?_⟩))⟩⟩
      · rw [g1, f1, hd]
        simp [wom_setup_writes]
        congr 1
        omega
      · rw [g2, hd]
        simp
    · rw [if_pos (by rw [hc]; exact bne_iff_ne.2 k6)]
      exact ⟨f1, f2.trans e4,
        Or.inr ⟨hall, Or.inr (Or.inr (Or.inl ⟨p, hp, ha, hb, hb2, k6, hc,
          by rw [hd]; simp⟩))⟩⟩

theorem wom_setup_writes_length (cfg : qmi8658_wom_config_t) :
    (wom_setup_writes cfg).length = 5 := rfl

/-- Transfers `0 .. 4` succeed and so do the next `p`: then every transfer below
`5 + p` succeeds. -/
theorem results_ok_below (bus : qmi_bus) (p : Nat)
    (hall : ∀ i, i < 5 → bus.result (bus.log.length + i) = ESP_OK)
    (hp : polls_pending bus (bus.log.length + 5) p) :
    ∀ m, m < 5 + p → bus.result (bus.log.length + m) = ESP_OK := by
  intro m hm
  by_cases h5 : m < 5
  · exact hall m h5
  · have := (hp (m - 5) (by omega)).1
    rwa [show bus.log.length + 5 + (m - 5) = bus.log.length + m by omega] at this

/-- C12. If transfer number `k` (counting from 0) of a run of
`bsp_qmi8658_configure_wom` on a non-NULL configuration is the first to fail, with
error `e`, then the run issues no transfer after it, and if it issues that
transfer at all it returns `e`.  When the failing transfer is one of the five
setup writes (`k < 5`) it is always reached: the run returns `e` having issued
exactly the first `k + 1` setup writes. -/
theorem configure_wom_aborts_on_first_error (bus : qmi_bus) (cfg : qmi8658_wom_config_t)
    (k : Nat) (e : esp_err_t)
    (hk : ∀ j, j < k → bus.result (bus.log.length + j) = ESP_OK)
    (he : bus.result (bus.log.length + k) = e) (hne : e ≠ ESP_OK) :
    (bsp_qmi8658_configure_wom bus (some cfg)).2.log.length ≤ bus.log.length + (k + 1) ∧
    (bus.log.length + k < (bsp_qmi8658_configure_wom bus (some cfg)).2.log.length → (bsp_qmi8658_configure_wom bus (some cfg)).1 = e) ∧
    (k < 5 → (bsp_qmi8658_configure_wom bus (some cfg)).1 = e ∧ (bsp_qmi8658_configure_wom bus (some cfg)).2.log = bus.log ++ (wom_setup_writes cfg).take (k + 1)) := by
  have hbad : bus.result (bus.log.length + k) ≠ ESP_OK := by rw [he]; exact hne
  have hle : ∀ m, bus.result (bus.log.length + m) ≠ ESP_OK → k ≤ m := by
    intro m hm
    by_contra hlt
    exact hm (hk m (by omega))
  obtain ⟨-, -, hcases⟩ := configure_wom_cases bus cfg
  rcases hcases with ⟨j, hj, hok, hfail, hret, hlog⟩ | ⟨hall, hrest⟩
  · have hjk : j = k := by
      have h1 := hle j hfail
      by_contra hne'
      exact hbad (hok k (by omega))
    subst hjk
    have hlen : (bsp_qmi8658_configure_wom bus (some cfg)).2.log.length = bus.log.length + (j + 1) := by
      rw [hlog]
      simp [wom_setup_writes_length]
      omega
    exact ⟨by omega, fun _ => hret.trans he, fun _ => ⟨hret.trans he, hlog⟩⟩
  · have hk5 : 5 ≤ k := by
      by_contra hlt
      exact hbad (hall k (by omega))
    rcases hrest with ⟨ha, hb, hc⟩ | ⟨p, hp, ha, hb, hc, hd⟩ |
        ⟨p, hp, ha, hb, hb2, hb3, hc, hd⟩ | ⟨p, hp, ha, hb, hb2, hb3, hc, hd⟩
    · have hbig : 5 + 100 ≤ k := by
        by_contra hlt
        exact hbad (results_ok_below bus 100 hall ha k (by omega))
      have hlen : (bsp_qmi8658_configure_wom bus (some cfg)).2.log.length = bus.log.length + 105 := by
        rw [hc]
        simp [wom_setup_writes_length]
      exact ⟨by omega, fun h => absurd h (by omega), fun h => absurd h (by omega)⟩
    · have hkp : k = 5 + p := by
        have h1 := hle (5 + p) (by rwa [← Nat.add_assoc])
        by_contra hne'
        exact hbad (results_ok_below bus p hall ha k (by omega))
      have hlen : (bsp_qmi8658_configure_wom bus (some cfg)).2.log.length
          = bus.log.length + (5 + (p + 1)) := by
        rw [hd]
        simp [wom_setup_writes_length]
      refine ⟨by omega, fun _ => ?_, fun h => absurd h (by omega)⟩
      rw [hc, ← he, hkp, Nat.add_assoc]
    · have hkp : k = 5 + p + 1 := by
        have h1 := hle (5 + p + 1) (by rwa [← Nat.add_assoc, ← Nat.add_assoc])
        by_contra hne'
        by_cases hlt : k < 5 + p
        · exact hbad (results_ok_below bus p hall ha k hlt)
        · have hkp' : k = 5 + p := by omega
          rw [hkp', ← Nat.add_assoc] at hbad
          exact hbad hb
      have hlen : (bsp_qmi8658_configure_wom bus (some cfg)).2.log.length
          = bus.log.length + (5 + (p + 1) + 1) := by
        rw [hd]
        simp [wom_setup_writes_length]
        omega
      refine ⟨by omega, fun _ => ?_, fun h => absurd h (by omega)⟩
      rw [hc, ← he, hkp]
      congr 1
      omega
    · have hkp : 5 + p + 2 ≤ k := by
        by_contra hlt
        by_cases hlt2 : k < 5 + p
        · exact hbad (results_ok_below bus p hall ha k hlt2)
        · by_cases hkp' : k = 5 + p
          · rw [hkp', ← Nat.add_assoc] at hbad
            exact hbad hb
          · have hkp'' : k = 5 + p + 1 := by omega
            rw [hkp'', ← Nat.add_assoc, ← Nat.add_assoc] at hbad
            exact hbad hb3
      have hlen : (bsp_qmi8658_configure_wom bus (some cfg)).2.log.length
          = bus.log.length + (5 + (p + 1) + 2) := by
        rw [hd]
        simp [wom_setup_writes_length]
        omega
      refine ⟨by omega, fun h => ?_, fun h => absurd h (by omega)⟩
      have hkp' : k = 5 + p + 2 := by omega
      rw [hc, ← he, hkp']
      congr 1
      omega

/-- The third register write (threshold to `0x0B`) fails with `ESP_FAIL`: the run
returns `ESP_FAIL` after the writes to `0x08`, `0x03` and `0x0B`; the writes to
`0x0C`, `0x0A` and `0x08` are never issued. -/
theorem configure_wom_aborts_on_first_error_witness :
    (bsp_qmi8658_configure_wom (scripted_bus (some 2) ESP_FAIL 0)
        (some { threshold_mg := 100, blanking_samples := 2, odr_mode := 0xC0,
                enable_interrupt := true })).1 = ESP_FAIL ∧
    (bsp_qmi8658_configure_wom (scripted_bus (some 2) ESP_FAIL 0)
        (some { threshold_mg := 100, blanking_samples := 2, odr_mode := 0xC0,
                enable_interrupt := true })).2.log
      = [bus_txn.write 0x08 0x00, bus_txn.write 0x03 0xC5, bus_txn.write 0x0B 100] :=
  have h := configure_wom_aborts_on_first_error (scripted_bus (some 2) ESP_FAIL 0)
    { threshold_mg := 100, blanking_samples := 2, odr_mode := 0xC0, enable_interrupt := true }
    2 ESP_FAIL (by decide) (by decide) (by decide)
  ⟨(h.2.2 (by decide)).1, (h.2.2 (by decide)).2⟩

/-- A run in which no transfer fails and the poll number `d < 100` is the first to
show command done: success, with the full transfer sequence. -/
theorem configure_wom_success (bus : qmi_bus) (cfg : qmi8658_wom_config_t) (d : Nat)
    (hr : ∀ n, bus.result n = ESP_OK) (hd : d < 100)
    (hpend : ∀ j, j < d → sensor_value bus (bus.log.length + 5 + j) 0x2D &&& 0x80 = 0)
    (hdone : sensor_value bus (bus.log.length + 5 + d) 0x2D &&& 0x80 ≠ 0) :
    (bsp_qmi8658_configure_wom bus (some cfg)).1 = ESP_OK ∧
    (bsp_qmi8658_configure_wom bus (some cfg)).2.log
      = bus.log ++ (wom_setup_writes cfg ++ List.replicate (d + 1) (bus_txn.read 0x2D)
          ++ [bus_txn.write 0x0A 0x00, bus_txn.write 0x08 0x01]) := by
  obtain ⟨-, -, hcases⟩ := configure_wom_cases bus cfg
  rcases hcases with ⟨j, -, -, hfail, -⟩ | ⟨-, hrest⟩
  · exact absurd (hr _) hfail
  · rcases hrest with ⟨ha, -⟩ | ⟨p, -, -, hb, -⟩ | ⟨p, -, -, -, -, hb3, -⟩ |
        ⟨p, hp, ha, hb, hb2, hb3, hc, hl⟩
    · exact absurd (ha d hd).2 hdone
    · exact absurd (hr _) hb
    · exact absurd (hr _) hb3
    · have hpd : p = d := by
        rcases Nat.lt_trichotomy p d with h | h | h
        · exact absurd (hpend p h) hb2
        · exact h
        · exact absurd (ha d h).2 hdone
      subst hpd
      exact ⟨hc.trans (hr _), hl⟩

/-- C13. On a bus that never fails and whose status-interrupt register first
shows command done on poll number `d < 100`, `bsp_qmi8658_configure_wom` returns
`ESP_OK` and issues exactly, in this order: `0x08 ← 0x00`, the accel-config byte
to `0x03`, the threshold byte to `0x0B`, the packed byte to `0x0C`,
`0x0A ← 0x08`, then `d + 1` reads of `0x2D`, `0x0A ← 0x00`, `0x08 ← 0x01`. -/
theorem configure_wom_write_order (bus : qmi_bus) (cfg : qmi8658_wom_config_t) (d : Nat)
    (hr : ∀ n, bus.result n = ESP_OK) (hd : d < 100)
    (hpend : ∀ j, j < d → sensor_value bus (bus.log.length + 5 + j) 0x2D &&& 0x80 = 0)
    (hdone : sensor_value bus (bus.log.length + 5 + d) 0x2D &&& 0x80 ≠ 0) :
    (bsp_qmi8658_configure_wom bus (some cfg)).1 = ESP_OK ∧
    (bsp_qmi8658_configure_wom bus (some cfg)).2.log
      = bus.log ++
          [bus_txn.write 0x08 0x00,
           bus_txn.write 0x03 ((cfg.odr_mode ||| 0x05) % 256),
           bus_txn.write 0x0B (cfg.threshold_mg % 256),
           bus_txn.write 0x0C
             ((((cfg.blanking_samples &&& 0x03) <<< 6) ||| (0x01 <<< 4) ||| 0x00) % 256),
           bus_txn.write 0x0A 0x08] ++
          List.replicate (d + 1) (bus_txn.read 0x2D) ++
          [bus_txn.write 0x0A 0x00, bus_txn.write 0x08 0x01] := by
  obtain ⟨h1, h2⟩ := configure_wom_success bus cfg d hr hd hpend hdone
  refine ⟨h1, ?_⟩
  rw [h2]
  simp [wom_setup_writes]

/-- Command done on the third poll: ten transfers in the prescribed order. -/
theorem configure_wom_write_order_witness :
    (bsp_qmi8658_configure_wom (scripted_bus none ESP_FAIL 7)
        (some { threshold_mg := 100, blanking_samples := 2, odr_mode := 0xC0,
                enable_interrupt := true })).1 = ESP_OK ∧
    (bsp_qmi8658_configure_wom (scripted_bus none ESP_FAIL 7)
        (some { threshold_mg := 100, blanking_samples := 2, odr_mode := 0xC0,
                enable_interrupt := true })).2.log
      = [bus_txn.write 0x08 0x00, bus_txn.write 0x03 0xC5, bus_txn.write 0x0B 100,
         bus_txn.write 0x0C 0x90, bus_txn.write 0x0A 0x08,
         bus_txn.read 0x2D, bus_txn.read 0x2D, bus_txn.read 0x2D,
         bus_txn.write 0x0A 0x00, bus_txn.write 0x08 0x01] :=
  have h := configure_wom_write_order (scripted_bus none ESP_FAIL 7)
    { threshold_mg := 100, blanking_samples := 2, odr_mode := 0xC0, enable_interrupt := true }
    2 (fun _ => rfl) (by decide) (by decide) (by decide)
  ⟨h.1, h.2⟩

/-! ### Bytes written by the WoM configuration -/

/-- Shape of every run on a non-NULL configuration: the transfers issued are the
first `m` setup writes (`1 ≤ m ≤ 5`) followed by transfers that are only polls of
`0x2D`, the acknowledge `0x0A ← 0x00` and the final `0x08 ← 0x01`; and setup
write number `j` is issued whenever the `j` transfers before it succeed. -/
theorem configure_wom_issued (bus : qmi_bus) (cfg : qmi8658_wom_config_t) :
    ∃ m rest, 1 ≤ m ∧ m ≤ 5 ∧
      (bsp_qmi8658_configure_wom bus (some cfg)).2.log = bus.log ++ ((wom_setup_writes cfg).take m ++ rest) ∧
      (∀ t, t ∈ rest → t = bus_txn.read 0x2D ∨ t = bus_txn.write 0x0A 0x00 ∨
        t = bus_txn.write 0x08 0x01) ∧
      (∀ j, j < 5 → (∀ i, i < j → bus.result (bus.log.length + i) = ESP_OK) → j < m) := by
  obtain ⟨-, -, hcases⟩ := configure_wom_cases bus cfg
  rcases hcases with ⟨j, hj, hok, hfail, -, hlog⟩ | ⟨hall, hrest⟩
  · refine ⟨j + 1, [], by omega, by omega, by rw [hlog]; simp, by simp, ?_⟩
    intro j' _ hj'
    by_contra hlt
    exact hfail (hj' j (by omega))
  · have htake : (wom_setup_writes cfg).take 5 = wom_setup_writes cfg := rfl
    rcases hrest with ⟨-, -, hl⟩ | ⟨p, -, -, -, -, hl⟩ | ⟨p, -, -, -, -, -, -, hl⟩ |
        ⟨p, -, -, -, -, -, -, hl⟩
    · refine ⟨5, _, by omega, le_refl _, by rw [htake]; exact hl, ?_, fun j hj _ => hj⟩
      intro t ht
      exact Or.inl (List.eq_of_mem_replicate ht)
    · refine ⟨5, _, by omega, le_refl _, by rw [htake]; exact hl, ?_, fun j hj _ => hj⟩
      intro t ht
      exact Or.inl (List.eq_of_mem_replicate ht)
    · refine ⟨5, List.replicate (p + 1) (bus_txn.read 0x2D) ++ [bus_txn.write 0x0A 0x00],
        by omega, le_refl _, by rw [htake, hl, List.append_assoc], ?_, fun j hj _ => hj⟩
      intro t ht
      rcases List.mem_append.1 ht with h | h
      · exact Or.inl (List.eq_of_mem_replicate h)
      · exact Or.inr (Or.inl (List.mem_singleton.1 h))
    · refine ⟨5, List.replicate (p + 1) (bus_txn.read 0x2D)
          ++ [bus_txn.write 0x0A 0x00, bus_txn.write 0x08 0x01],
        by omega, le_refl _, by rw [htake, hl, List.append_assoc], ?_, fun j hj _ => hj⟩
      intro t ht
      rcases List.mem_append.1 ht with h | h
      · exact Or.inl (List.eq_of_mem_replicate h)
      · simp only [List.mem_cons, List.mem_singleton, List.not_mem_nil, or_false] at h
        exact Or.inr h

/-- The bytes a run writes to a register other than `0x0A` and `0x08` are those of
the setup writes it issued. -/
theorem configure_wom_bytes (bus : qmi_bus) (cfg : qmi8658_wom_config_t) (reg : Nat)
    (h0A : reg ≠ 0x0A) (h08 : reg ≠ 0x08) :
    ∃ m, 1 ≤ m ∧ m ≤ 5 ∧
      bytes_written reg ((bsp_qmi8658_configure_wom bus (some cfg)).2.log.drop bus.log.length)
        = bytes_written reg ((wom_setup_writes cfg).take m) ∧
      (∀ j, j < 5 → (∀ i, i < j → bus.result (bus.log.length + i) = ESP_OK) → j < m) := by
  obtain ⟨m, rest, h1, h5, hlog, hrest, hreach⟩ := configure_wom_issued bus cfg
  refine ⟨m, h1, h5, ?_, hreach⟩
  have hnil : bytes_written reg rest = [] := by
    unfold bytes_written
    rw [List.filterMap_eq_nil_iff]
    intro t ht
    rcases hrest t ht with h | h | h
    · rw [h]
    · rw [h]
      simp [Ne.symm h0A]
    · rw [h]
      simp [Ne.symm h08]
  rw [hlog, List.drop_left]
  unfold bytes_written at hnil ⊢
  rw [List.filterMap_append, hnil, List.append_nil]

/-- The packed byte of step 4: `((b & 3) << 6) | (1 << 4) | 0` is
`64 * (b mod 4) + 16`. -/
theorem int_config_value (b : Nat) :
    (((b &&& 0x03) <<< 6) ||| (0x01 <<< 4) ||| 0x00) % 256 = 64 * (b % 4) + 16 := by
  have h3 : b &&& 0x03 = b % 4 := Nat.and_pow_two_sub_one_eq_mod b 2
  rw [h3]
  have hlt : b % 4 < 4 := Nat.mod_lt _ (by decide)
  generalize b % 4 = m at hlt
  interval_cases m <;> decide

/-- Bytes written to the high calibration register (`0x0C`) by a run. -/
theorem configure_wom_bytes_0C (bus : qmi_bus) (cfg : qmi8658_wom_config_t) :
    (∀ v, v ∈ bytes_written 0x0C ((bsp_qmi8658_configure_wom bus (some cfg)).2.log.drop bus.log.length) →
      v = 64 * (cfg.blanking_samples % 4) + 16) ∧
    ((∀ i, i < 3 → bus.result (bus.log.length + i) = ESP_OK) →
      bytes_written 0x0C ((bsp_qmi8658_configure_wom bus (some cfg)).2.log.drop bus.log.length)
        = [64 * (cfg.blanking_samples % 4) + 16]) := by
  obtain ⟨m, h1, h5, hb, hreach⟩ := configure_wom_bytes bus cfg 0x0C (by decide) (by decide)
  unfold wom_setup_writes at hb
  rw [int_config_value cfg.blanking_samples] at hb
  constructor
  · intro v hvmem
    rw [hb] at hvmem
    interval_cases m <;> simp [bytes_written] at hvmem
    all_goals exact hvmem
  · intro hok
    have hm := hreach 3 (by omega) hok
    rw [hb]
    interval_cases m <;> simp [bytes_written]

/-- Bytes written to the accel-config register (`0x03`) by a run. -/
theorem configure_wom_bytes_03 (bus : qmi_bus) (cfg : qmi8658_wom_config_t) :
    (∀ v, v ∈ bytes_written 0x03 ((bsp_qmi8658_configure_wom bus (some cfg)).2.log.drop bus.log.length) →
      v = (cfg.odr_mode ||| 0x05) % 256) ∧
    (bus.result bus.log.length = ESP_OK →
      bytes_written 0x03 ((bsp_qmi8658_configure_wom bus (some cfg)).2.log.drop bus.log.length)
        = [(cfg.odr_mode ||| 0x05) % 256]) := by
  obtain ⟨m, h1, h5, hb, hreach⟩ := configure_wom_bytes bus cfg 0x03 (by decide) (by decide)
  unfold wom_setup_writes at hb
  generalize (cfg.odr_mode ||| 0x05) % 256 = x at hb ⊢
  constructor
  · intro v hvmem
    rw [hb] at hvmem
    interval_cases m <;> simp [bytes_written] at hvmem
    all_goals exact hvmem
  · intro hok
    have hm := hreach 1 (by omega) (by
      intro i hi
      interval_cases i
      exact hok)
    rw [hb]
    interval_cases m <;> simp [bytes_written]

/-- C14, as stated, fails: a threshold of 10 mg, below the documented 50-500 mg,
is not rejected; on a working bus the run succeeds and writes registers. -/
theorem configure_wom_range_check_counterexample :
    ¬ ((bsp_qmi8658_configure_wom (scripted_bus none ESP_FAIL 5)
          (some { threshold_mg := 10, blanking_samples := 2, odr_mode := 0xC0,
                  enable_interrupt := true })).1 = ESP_ERR_INVALID_ARG ∧
       (bsp_qmi8658_configure_wom (scripted_bus none ESP_FAIL 5)
          (some { threshold_mg := 10, blanking_samples := 2, odr_mode := 0xC0,
                  enable_interrupt := true })).2.log = []) := by
  decide

/-- C14, amended. `bsp_qmi8658_configure_wom` rejects only the NULL
configuration: for NULL it returns `ESP_ERR_INVALID_ARG` and leaves the bus
untouched; for every non-NULL configuration, whatever `threshold_mg`, the first
transfer `0x08 ← 0x00` is issued, and on a bus that never fails with command done
seen on some poll below the budget the run returns `ESP_OK`. -/
theorem configure_wom_rejects_null_only :
    (∀ bus : qmi_bus, bsp_qmi8658_configure_wom bus none = (ESP_ERR_INVALID_ARG, bus)) ∧
    (∀ (bus : qmi_bus) (cfg : qmi8658_wom_config_t),
      ∃ rest, (bsp_qmi8658_configure_wom bus (some cfg)).2.log = bus.log ++ (bus_txn.write 0x08 0x00 :: rest)) ∧
    (∀ (bus : qmi_bus) (cfg : qmi8658_wom_config_t) (d : Nat),
      (∀ n, bus.result n = ESP_OK) → d < 100 →
      (∀ j, j < d → sensor_value bus (bus.log.length + 5 + j) 0x2D &&& 0x80 = 0) →
      sensor_value bus (bus.log.length + 5 + d) 0x2D &&& 0x80 ≠ 0 →
      (bsp_qmi8658_configure_wom bus (some cfg)).1 = ESP_OK) := by
  refine ⟨fun _ => rfl, ?_, ?_⟩
  · intro bus cfg
    obtain ⟨m, rest, h1, -, hlog, -, -⟩ := configure_wom_issued bus cfg
    obtain ⟨m', rfl⟩ : ∃ m', m = m' + 1 := ⟨m - 1, by omega⟩
    refine ⟨((wom_setup_writes cfg).drop 1).take m' ++ rest, ?_⟩
    rw [hlog, wom_setup_writes, List.take_succ_cons, List.cons_append]
    rfl
  · intro bus cfg d hr hd hpend hdone
    exact (configure_wom_success bus cfg d hr hd hpend hdone).1

/-- C15, as stated, fails: with `blanking_samples = 4` the byte written to `0x0C`
has bits [7:6] equal to 0, not to `min(4, 3) = 3`. -/
theorem blanking_saturation_counterexample :
    ¬ (∀ v, v ∈ bytes_written 0x0C (bsp_qmi8658_configure_wom (scripted_bus none ESP_FAIL 5)
          (some { threshold_mg := 100, blanking_samples := 4, odr_mode := 0xC0,
                  enable_interrupt := true })).2.log →
        v / 64 % 4 = min 4 3) := by
  decide

/-- C15, amended. Bits [7:6] of every byte `bsp_qmi8658_configure_wom` writes to
the high calibration register (`0x0C`) equal `blanking_samples mod 4` (the low two
bits: larger values wrap, they do not saturate).  They equal
`min(blanking_samples, 3)` exactly when `blanking_samples ≤ 3` or
`blanking_samples mod 4 = 3`; in particular they do for `blanking_samples ≤ 3`,
and they do not for any `blanking_samples > 3` whose low two bits are not both
set.  The byte is written exactly once whenever the first three transfers
succeed. -/
theorem blanking_bits_wrap (bus : qmi_bus) (cfg : qmi8658_wom_config_t) :
    (∀ v, v ∈ bytes_written 0x0C ((bsp_qmi8658_configure_wom bus (some cfg)).2.log.drop bus.log.length) →
      v / 64 % 4 = cfg.blanking_samples % 4 ∧
      (v / 64 % 4 = min cfg.blanking_samples 3 ↔
        (cfg.blanking_samples ≤ 3 ∨ cfg.blanking_samples % 4 = 3)) ∧
      (cfg.blanking_samples ≤ 3 → v / 64 % 4 = min cfg.blanking_samples 3) ∧
      (3 < cfg.blanking_samples → cfg.blanking_samples % 4 ≠ 3 →
        v / 64 % 4 ≠ min cfg.blanking_samples 3)) ∧
    ((∀ i, i < 3 → bus.result (bus.log.length + i) = ESP_OK) →
      (bytes_written 0x0C ((bsp_qmi8658_configure_wom bus (some cfg)).2.log.drop bus.log.length)).length = 1) := by
  obtain ⟨h1, h2⟩ := configure_wom_bytes_0C bus cfg
  constructor
  · intro v hv
    have := h1 v hv
    refine ⟨by omega, ⟨fun h => ?_, fun h => ?_⟩, fun hle => ?_, fun hgt hne => ?_⟩
    · omega
    · omega
    · omega
    · omega
  · intro hok
    rw [h2 hok]
    rfl

/-- C16. Every byte `bsp_qmi8658_configure_wom` writes to the high calibration
register (`0x0C`) equals `64 * (blanking_samples mod 4) + 16`: bits [3:0] are 0,
bits [5:4] are the constant `01`, bits [7:6] are the low two bits of
`blanking_samples`.  That byte is the one written whenever the first three
transfers succeed. -/
theorem packed_int_config_layout (bus : qmi_bus) (cfg : qmi8658_wom_config_t) :
    (∀ v, v ∈ bytes_written 0x0C ((bsp_qmi8658_configure_wom bus (some cfg)).2.log.drop bus.log.length) →
      v = 64 * (cfg.blanking_samples % 4) + 16 ∧
      v % 16 = 0 ∧ v / 16 % 4 = 1 ∧ v / 64 = cfg.blanking_samples % 4) ∧
    ((∀ i, i < 3 → bus.result (bus.log.length + i) = ESP_OK) →
      bytes_written 0x0C ((bsp_qmi8658_configure_wom bus (some cfg)).2.log.drop bus.log.length)
        = [64 * (cfg.blanking_samples % 4) + 16]) := by
  obtain ⟨h1, h2⟩ := configure_wom_bytes_0C bus cfg
  refine ⟨?_, h2⟩
  intro v hv
  have := h1 v hv
  refine ⟨this, ?_, ?_, ?_⟩ <;> omega

/-- C17, as stated, fails: the configurations with `odr_mode = 0xC0` and
`odr_mode = 0xD0`, otherwise equal, write `0xC5` and `0xD5` to `0x03`; these agree
on the low nibble and differ above it. -/
theorem accel_config_low_nibble_counterexample :
    ¬ (∀ v1, v1 ∈ bytes_written 0x03 (bsp_qmi8658_configure_wom
          (scripted_bus none ESP_FAIL 5)
          (some { threshold_mg := 100, blanking_samples := 2, odr_mode := 0xC0,
                  enable_interrupt := true })).2.log →
        ∀ v2, v2 ∈ bytes_written 0x03 (bsp_qmi8658_configure_wom
          (scripted_bus none ESP_FAIL 5)
          (some { threshold_mg := 100, blanking_samples := 2, odr_mode := 0xD0,
                  enable_interrupt := true })).2.log →
        v1 % 16 ≠ v2 % 16 ∧ v1 / 16 = v2 / 16) := by
  decide

/-- C17, amended. Every byte `bsp_qmi8658_configure_wom` writes to the
accel-config register (`0x03`) is `odr_mode | 0x05` (as a byte), and it is written
whenever the first transfer succeeds.  For the documented codes `0xC0`, `0xD0`,
`0xE0`, `0xF0` the low nibble is the fixed pattern `0x5` and the high nibble is
that of `odr_mode`: two configurations with different documented codes produce
bytes that agree on the low nibble and differ in the high nibble. -/
theorem accel_config_byte_layout (bus1 bus2 : qmi_bus) (cfg1 cfg2 : qmi8658_wom_config_t) :
    (∀ v, v ∈ bytes_written 0x03
        ((bsp_qmi8658_configure_wom bus1 (some cfg1)).2.log.drop bus1.log.length) →
      v = (cfg1.odr_mode ||| 0x05) % 256) ∧
    (bus1.result bus1.log.length = ESP_OK →
      bytes_written 0x03
          ((bsp_qmi8658_configure_wom bus1 (some cfg1)).2.log.drop bus1.log.length)
        = [(cfg1.odr_mode ||| 0x05) % 256]) ∧
    (cfg1.odr_mode ∈ [0xC0, 0xD0, 0xE0, 0xF0] → cfg2.odr_mode ∈ [0xC0, 0xD0, 0xE0, 0xF0] →
      ∀ v1, v1 ∈ bytes_written 0x03
          ((bsp_qmi8658_configure_wom bus1 (some cfg1)).2.log.drop bus1.log.length) →
      ∀ v2, v2 ∈ bytes_written 0x03
          ((bsp_qmi8658_configure_wom bus2 (some cfg2)).2.log.drop bus2.log.length) →
      v1 % 16 = 5 ∧ v2 % 16 = 5 ∧
      v1 / 16 = cfg1.odr_mode / 16 ∧ v2 / 16 = cfg2.odr_mode / 16 ∧
      (cfg1.odr_mode ≠ cfg2.odr_mode → v1 / 16 ≠ v2 / 16)) := by
  obtain ⟨a1, a2⟩ := configure_wom_bytes_03 bus1 cfg1
  obtain ⟨b1, -⟩ := configure_wom_bytes_03 bus2 cfg2
  refine ⟨a1, a2, ?_⟩
  intro h1 h2 v1 hv1 v2 hv2
  rw [a1 v1 hv1, b1 v2 hv2]
  generalize cfg1.odr_mode = o1 at h1 ⊢
  generalize cfg2.odr_mode = o2 at h2 ⊢
  simp only [List.mem_cons, List.mem_singleton, List.not_mem_nil, or_false] at h1 h2
  rcases h1 with rfl | rfl | rfl | rfl <;> rcases h2 with rfl | rfl | rfl | rfl <;> decide

/-! ## Power state machine: transitions -/

/-- The notification loop calls the non-NULL entries among the first
`callback_count` slots, in slot order. -/
theorem notify_callbacks_eq (ctx : power_context_t) (old_state new_state : power_state_t) :
    notify_callbacks ctx old_state new_state
      = ((ctx.callbacks.take ctx.callback_count).filter (fun cb => cb != 0)).map
          (fun cb => { callback := cb, old_state := old_state, new_state := new_state }) := by
  unfold notify_callbacks
  generalize ctx.callback_count = n
  generalize ctx.callbacks = l
  induction n with
  | zero => simp
  | succ n ih =>
      rw [List.range_succ, List.filterMap_append, ih, List.take_succ, List.filter_append,
        List.map_append]
      congr 1
      cases h : l[n]? with
      | none => simp [List.getD_eq_getElem?_getD, h]
      | some x =>
          by_cases hx : x = 0
          · simp [List.getD_eq_getElem?_getD, h, hx]
          · simp [List.getD_eq_getElem?_getD, h, hx]

/-- What a transition to a different state does, with the lock obtained, in terms
of the one `display_power_set_brightness` call it makes. -/
theorem transition_to_state_changed (s : power_system) (new_state : power_state_t)
    (fade_start_ok : Bool) (hne : s.pm.current_state ≠ new_state)
    (brightness : Nat) (animate : Bool)
    (hd : (match new_state with
      | POWER_STATE_ACTIVE =>
          (⟨s.pm.config.user_brightness, s.pm.config.enable_fade⟩ : brightness_directive)
      | POWER_STATE_DIM => ⟨s.pm.config.dim_brightness, s.pm.config.enable_fade⟩
      | POWER_STATE_OFF => ⟨0, s.pm.config.enable_fade⟩
      | POWER_STATE_SLEEP => ⟨0, false⟩) = ⟨brightness, animate⟩) :
    (transition_to_state s new_state true fade_start_ok)
      = ((display_power_set_brightness s.display brightness animate fade_start_ok).1,
         { s with
             pm := { s.pm with previous_state := s.pm.current_state,
                               current_state := new_state },
             display :=
               (display_power_set_brightness s.display brightness animate fade_start_ok).2,
             directives := s.directives ++ [⟨brightness, animate⟩],
             calls := s.calls ++ notify_callbacks s.pm s.pm.current_state new_state }) := by
  unfold transition_to_state
  cases new_state <;>
    simp only [brightness_directive.mk.injEq] at hd <;>
    obtain ⟨rfl, rfl⟩ := hd <;>
    simp [hne, call_display_power_set_brightness, notify_callbacks]

/-- C18. A transition to a different state, with the lock obtained, makes exactly
the `display_power_set_brightness` call determined by the new state,
Active: `(user_brightness, enable_fade)`, Dim: `(dim_brightness, enable_fade)`,
Off: `(0, enable_fade)`, Sleep: `(0, false)`; the display state afterwards and the
result code are those of that call.  After a transition to Sleep on an initialised
display the brightness is 0 at once and no fade is active. -/
theorem transition_brightness_directive (s : power_system) (new_state : power_state_t)
    (fade_start_ok : Bool) (hne : s.pm.current_state ≠ new_state) :
    (new_state = POWER_STATE_ACTIVE →
      (transition_to_state s new_state true fade_start_ok).2.directives
        = s.directives ++ [⟨s.pm.config.user_brightness, s.pm.config.enable_fade⟩] ∧
      (transition_to_state s new_state true fade_start_ok).2.display
        = (display_power_set_brightness s.display s.pm.config.user_brightness s.pm.config.enable_fade fade_start_ok).2 ∧
      (transition_to_state s new_state true fade_start_ok).1
        = (display_power_set_brightness s.display s.pm.config.user_brightness s.pm.config.enable_fade fade_start_ok).1) ∧
    (new_state = POWER_STATE_DIM →
      (transition_to_state s new_state true fade_start_ok).2.directives
        = s.directives ++ [⟨s.pm.config.dim_brightness, s.pm.config.enable_fade⟩] ∧
      (transition_to_state s new_state true fade_start_ok).2.display
        = (display_power_set_brightness s.display s.pm.config.dim_brightness s.pm.config.enable_fade fade_start_ok).2 ∧
      (transition_to_state s new_state true fade_start_ok).1
        = (display_power_set_brightness s.display s.pm.config.dim_brightness s.pm.config.enable_fade fade_start_ok).1) ∧
    (new_state = POWER_STATE_OFF →
      (transition_to_state s new_state true fade_start_ok).2.directives = s.directives ++ [⟨0, s.pm.config.enable_fade⟩] ∧
      (transition_to_state s new_state true fade_start_ok).2.display = (display_power_set_brightness s.display 0 s.pm.config.enable_fade fade_start_ok).2 ∧
      (transition_to_state s new_state true fade_start_ok).1 = (display_power_set_brightness s.display 0 s.pm.config.enable_fade fade_start_ok).1) ∧
    (new_state = POWER_STATE_SLEEP →
      (transition_to_state s new_state true fade_start_ok).2.directives = s.directives ++ [⟨0, false⟩] ∧
      (transition_to_state s new_state true fade_start_ok).2.display = (display_power_set_brightness s.display 0 false fade_start_ok).2 ∧
      (transition_to_state s new_state true fade_start_ok).1 = (display_power_set_brightness s.display 0 false fade_start_ok).1 ∧
      (s.display.initialized = true →
        (transition_to_state s new_state true fade_start_ok).2.display.current_brightness = 0 ∧
        (transition_to_state s new_state true fade_start_ok).2.display.target_brightness = 0 ∧
        (transition_to_state s new_state true fade_start_ok).2.display.fade_active = false ∧
        (transition_to_state s new_state true fade_start_ok).1 = ESP_OK)) := by
  refine ⟨?_, ?_, ?_, ?_⟩
  · intro h
    subst h
    rw [transition_to_state_changed s _ fade_start_ok hne _ _ rfl]
    exact ⟨rfl, rfl, rfl⟩
  · intro h
    subst h
    rw [transition_to_state_changed s _ fade_start_ok hne _ _ rfl]
    exact ⟨rfl, rfl, rfl⟩
  · intro h
    subst h
    rw [transition_to_state_changed s _ fade_start_ok hne _ _ rfl]
    exact ⟨rfl, rfl, rfl⟩
  · intro h
    subst h
    rw [transition_to_state_changed s _ fade_start_ok hne _ _ rfl]
    refine ⟨rfl, rfl, rfl, ?_⟩
    intro hi
    unfold display_power_set_brightness
    simp [hi]

/-- A freshly initialised manager at 80 % sent to Sleep: brightness 0 at once, no
fade, one call `(0, false)` recorded. -/
theorem transition_brightness_directive_witness :
    (transition_to_state (power_manager_init power_system_zero
        { dim_timeout_ms := 10000, off_timeout_ms := 20000, sleep_timeout_ms := 30000,
          dim_brightness := 2, user_brightness := 80, enable_fade := true,
          fade_duration_ms := 1000 } 0 ⟨true, true, true, true⟩).2 POWER_STATE_SLEEP true true).2.display.current_brightness = 0 ∧
    (transition_to_state (power_manager_init power_system_zero
        { dim_timeout_ms := 10000, off_timeout_ms := 20000, sleep_timeout_ms := 30000,
          dim_brightness := 2, user_brightness := 80, enable_fade := true,
          fade_duration_ms := 1000 } 0 ⟨true, true, true, true⟩).2 POWER_STATE_SLEEP true true).2.display.fade_active = false ∧
    (transition_to_state (power_manager_init power_system_zero
        { dim_timeout_ms := 10000, off_timeout_ms := 20000, sleep_timeout_ms := 30000,
          dim_brightness := 2, user_brightness := 80, enable_fade := true,
          fade_duration_ms := 1000 } 0 ⟨true, true, true, true⟩).2 POWER_STATE_SLEEP true true).2.directives = [⟨0, false⟩] :=
  have h := (transition_brightness_directive (power_manager_init power_system_zero
        { dim_timeout_ms := 10000, off_timeout_ms := 20000, sleep_timeout_ms := 30000,
          dim_brightness := 2, user_brightness := 80, enable_fade := true,
          fade_duration_ms := 1000 } 0 ⟨true, true, true, true⟩).2 POWER_STATE_SLEEP true (by decide)).2.2.2 rfl
  ⟨(h.2.2.2 (by decide)).1, (h.2.2.2 (by decide)).2.2.1, h.1⟩

/-- C19. A transition to a different state, with the lock obtained, on a registry
whose `callback_count` used slots hold the non-NULL callbacks `cbs`: the current
state becomes the new state and the previous state the old one, exactly one
`display_power_set_brightness` call is recorded, every callback of `cbs` is called
exactly once, in registration order, with `(old, new)`, and the registry is
unchanged.  `power_manager_force_state` on an initialised manager is this
transition. -/
theorem transition_fan_out (s : power_system) (new_state : power_state_t)
    (fade_start_ok : Bool) (cbs : List power_state_cb_t)
    (hne : s.pm.current_state ≠ new_state)
    (hreg : s.pm.callbacks.take s.pm.callback_count = cbs)
    (hnn : ∀ cb, cb ∈ cbs → cb ≠ 0) :
    (transition_to_state s new_state true fade_start_ok).2.pm.current_state = new_state ∧
    (transition_to_state s new_state true fade_start_ok).2.pm.previous_state = s.pm.current_state ∧
    (∃ d, (transition_to_state s new_state true fade_start_ok).2.directives = s.directives ++ [d]) ∧
    (transition_to_state s new_state true fade_start_ok).2.calls
      = s.calls ++ cbs.map (fun cb =>
          { callback := cb, old_state := s.pm.current_state, new_state := new_state }) ∧
    (transition_to_state s new_state true fade_start_ok).2.pm.callbacks = s.pm.callbacks ∧
    (transition_to_state s new_state true fade_start_ok).2.pm.callback_count = s.pm.callback_count ∧
    (s.pm.initialized = true →
      power_manager_force_state s new_state true fade_start_ok = (transition_to_state s new_state true fade_start_ok)) := by
  have hfilter : (s.pm.callbacks.take s.pm.callback_count).filter (fun cb => cb != 0) = cbs := by
    rw [hreg, List.filter_eq_self]
    intro cb hcb
    exact bne_iff_ne.2 (hnn cb hcb)
  have hcalls : notify_callbacks s.pm s.pm.current_state new_state
      = cbs.map (fun cb =>
          { callback := cb, old_state := s.pm.current_state, new_state := new_state }) := by
    rw [notify_callbacks_eq, hfilter]
  refine ⟨?_, ?_, ?_, ?_, ?_, ?_, ?_⟩
  · cases new_state <;> rw [transition_to_state_changed s _ fade_start_ok hne _ _ rfl]
  · cases new_state <;> rw [transition_to_state_changed s _ fade_start_ok hne _ _ rfl]
  · cases new_state <;> rw [transition_to_state_changed s _ fade_start_ok hne _ _ rfl] <;>
      exact ⟨_, rfl⟩
  · cases new_state <;> rw [transition_to_state_changed s _ fade_start_ok hne _ _ rfl] <;>
      exact congrArg (s.calls ++ ·) hcalls
  · cases new_state <;> rw [transition_to_state_changed s _ fade_start_ok hne _ _ rfl]
  · cases new_state <;> rw [transition_to_state_changed s _ fade_start_ok hne _ _ rfl]
  · intro hi
    unfold power_manager_force_state
    simp [hi]

/-- Three callbacks registered, then a transition Active → Dim: each is called
once, in order, with (Active, Dim). -/
theorem transition_fan_out_witness :
    (transition_to_state (power_system_with_callbacks [11, 12, 13])
        POWER_STATE_DIM true true).2.calls
      = [⟨11, POWER_STATE_ACTIVE, POWER_STATE_DIM⟩, ⟨12, POWER_STATE_ACTIVE, POWER_STATE_DIM⟩,
         ⟨13, POWER_STATE_ACTIVE, POWER_STATE_DIM⟩] ∧
    (transition_to_state (power_system_with_callbacks [11, 12, 13])
        POWER_STATE_DIM true true).2.pm.current_state = POWER_STATE_DIM ∧
    (transition_to_state (power_system_with_callbacks [11, 12, 13])
        POWER_STATE_DIM true true).2.pm.previous_state = POWER_STATE_ACTIVE :=
  have h := transition_fan_out (power_system_with_callbacks [11, 12, 13]) POWER_STATE_DIM true
    [11, 12, 13] (by decide) (by decide) (by decide)
  ⟨h.2.2.2.1, h.1, h.2.1⟩

/-- A tick that cannot obtain the lock changes nothing but the log counter. -/
theorem power_timer_callback_unlocked (s : power_system) (now : Int) (fade_start_ok : Bool) :
    (power_timer_callback s now false fade_start_ok).pm = s.pm ∧
    (power_timer_callback s now false fade_start_ok).display = s.display ∧
    (power_timer_callback s now false fade_start_ok).calls = s.calls ∧
    (power_timer_callback s now false fade_start_ok).directives = s.directives := by
  unfold power_timer_callback transition_to_state
  by_cases hi : s.pm.initialized = true
  · simp [hi]
  · simp [hi]

/-- State after a tick that obtains the lock, on an initialised manager. -/
theorem power_timer_callback_locked (s : power_system) (now : Int) (fade_start_ok : Bool)
    (hi : s.pm.initialized = true) :
    (power_timer_callback s now true fade_start_ok).pm.current_state =
      if power_manager_get_idle_time_ms s.pm now ≥ s.pm.config.off_timeout_ms then
        POWER_STATE_OFF
      else if power_manager_get_idle_time_ms s.pm now ≥ s.pm.config.dim_timeout_ms then
        POWER_STATE_DIM
      else POWER_STATE_ACTIVE := by
  unfold power_timer_callback
  simp only [hi, Bool.not_true, Bool.false_eq_true, if_false]
  generalize (if power_manager_get_idle_time_ms s.pm now ≥ s.pm.config.off_timeout_ms then
        POWER_STATE_OFF
      else if power_manager_get_idle_time_ms s.pm now ≥ s.pm.config.dim_timeout_ms then
        POWER_STATE_DIM
      else POWER_STATE_ACTIVE) = target
  by_cases h : target = s.pm.current_state
  · simp [h]
  · simp [h, (transition_to_state_locked s target fade_start_ok).1]

/-- C20. If the state lock is not obtained, `transition_to_state` returns
`ESP_ERR_TIMEOUT` and leaves the whole power subsystem as it was (states,
brightness and fade state, registry; no callback is called, no brightness call is
made).  An evaluator tick that fails to obtain the lock likewise leaves all of
that unchanged, and the next tick that obtains the lock puts the manager in the
state its idle time calls for. -/
theorem transition_lock_timeout (s : power_system) (new_state : power_state_t)
    (fade_start_ok : Bool) :
    transition_to_state s new_state false fade_start_ok = (ESP_ERR_TIMEOUT, s) ∧
    (∀ (now : Int) (ok : Bool),
      (power_timer_callback s now false ok).pm = s.pm ∧
      (power_timer_callback s now false ok).display = s.display ∧
      (power_timer_callback s now false ok).calls = s.calls ∧
      (power_timer_callback s now false ok).directives = s.directives) ∧
    (∀ (now later : Int) (ok1 ok2 : Bool), s.pm.initialized = true →
      (power_timer_callback (power_timer_callback s now false ok1) later true
          ok2).pm.current_state =
        if power_manager_get_idle_time_ms s.pm later ≥ s.pm.config.off_timeout_ms then
          POWER_STATE_OFF
        else if power_manager_get_idle_time_ms s.pm later ≥ s.pm.config.dim_timeout_ms then
          POWER_STATE_DIM
        else POWER_STATE_ACTIVE) := by
  refine ⟨by simp [transition_to_state], fun now ok => power_timer_callback_unlocked s now ok, ?_⟩
  intro now later ok1 ok2 hi
  have hpm := (power_timer_callback_unlocked s now ok1).1
  rw [power_timer_callback_locked _ later ok2 (by rw [hpm]; exact hi), hpm]

/-! ## User brightness -/

/-- C21. `power_manager_set_user_brightness(pct)` with `pct` a byte, on an
initialised manager: the stored user brightness becomes `min(pct, 100)` and the
power state is unchanged; in state Active exactly one
`display_power_set_brightness(min(pct, 100), enable_fade)` call is made, whose
outcome is the display state and the result code; in any other state the display
(brightness and fade state) is untouched, no call is made and the result is
`ESP_OK`. -/
theorem set_user_brightness_effect (s : power_system) (pct : Nat) (fade_start_ok : Bool)
    (hi : s.pm.initialized = true) (hp : pct < 256) :
    power_manager_get_user_brightness (power_manager_set_user_brightness s pct fade_start_ok).2.pm = min pct 100 ∧
    (power_manager_set_user_brightness s pct fade_start_ok).2.pm.current_state = s.pm.current_state ∧
    (s.pm.current_state = POWER_STATE_ACTIVE →
      (power_manager_set_user_brightness s pct fade_start_ok).2.directives = s.directives ++ [⟨min pct 100, s.pm.config.enable_fade⟩] ∧
      (power_manager_set_user_brightness s pct fade_start_ok).2.display
        = (display_power_set_brightness s.display (min pct 100) s.pm.config.enable_fade
            fade_start_ok).2 ∧
      (power_manager_set_user_brightness s pct fade_start_ok).1
        = (display_power_set_brightness s.display (min pct 100) s.pm.config.enable_fade
            fade_start_ok).1) ∧
    (s.pm.current_state ≠ POWER_STATE_ACTIVE →
      (power_manager_set_user_brightness s pct fade_start_ok).2.display = s.display ∧ (power_manager_set_user_brightness s pct fade_start_ok).2.directives = s.directives ∧ (power_manager_set_user_brightness s pct fade_start_ok).1 = ESP_OK) := by
  have hm : pct % 256 = pct := Nat.mod_eq_of_lt hp
  have hmin : (if pct > 100 then 100 else pct) = min pct 100 := by
    split_ifs <;> omega
  unfold power_manager_set_user_brightness power_manager_get_user_brightness
  simp only [hi, hm, hmin, Bool.not_true, Bool.false_eq_true, if_false]
  by_cases ha : s.pm.current_state = POWER_STATE_ACTIVE
  · simp only [ha, beq_self_eq_true, if_true, call_display_power_set_brightness]
    refine ⟨?_, ?_, fun _ => ⟨?_, ?_, ?_⟩, fun h => absurd rfl h⟩
    all_goals split_ifs with h
    all_goals first
      | rfl
      | exact (of_not_not (fun hne => h (bne_iff_ne.2 hne))).symm
  · have hb : (s.pm.current_state == POWER_STATE_ACTIVE) = false := by
      simpa using ha
    simp only [hb, Bool.false_eq_true, if_false]
    simp [ha]

/-- An Active manager at 80 % asked for 150 %: the stored value is 100 and one
call `(100, true)` is made; the state stays Active. -/
theorem set_user_brightness_effect_witness :
    power_manager_get_user_brightness
      (power_manager_set_user_brightness (power_manager_init power_system_zero
        { dim_timeout_ms := 10000, off_timeout_ms := 20000, sleep_timeout_ms := 30000,
          dim_brightness := 2, user_brightness := 80, enable_fade := true,
          fade_duration_ms := 1000 } 0 ⟨true, true, true, true⟩).2 150 true).2.pm = 100 ∧
    (power_manager_set_user_brightness (power_manager_init power_system_zero
        { dim_timeout_ms := 10000, off_timeout_ms := 20000, sleep_timeout_ms := 30000,
          dim_brightness := 2, user_brightness := 80, enable_fade := true,
          fade_duration_ms := 1000 } 0 ⟨true, true, true, true⟩).2 150 true).2.directives = [⟨100, true⟩] ∧
    (power_manager_set_user_brightness (power_manager_init power_system_zero
        { dim_timeout_ms := 10000, off_timeout_ms := 20000, sleep_timeout_ms := 30000,
          dim_brightness := 2, user_brightness := 80, enable_fade := true,
          fade_duration_ms := 1000 } 0 ⟨true, true, true, true⟩).2 150 true).2.pm.current_state
      = POWER_STATE_ACTIVE :=
  have h := set_user_brightness_effect (power_manager_init power_system_zero
        { dim_timeout_ms := 10000, off_timeout_ms := 20000, sleep_timeout_ms := 30000,
          dim_brightness := 2, user_brightness := 80, enable_fade := true,
          fade_duration_ms := 1000 } 0 ⟨true, true, true, true⟩).2 150 true (by decide) (by decide)
  ⟨h.1, (h.2.2.1 (by decide)).1, h.2.1⟩

/-- C22. On an initialised fade controller, `display_power_set_brightness(target,
animate)` with `animate` false, or fading disabled, or no step timer: both
`current_brightness` and `target_brightness` become `min(target, 100)` (`target`
taken as a byte), `fade_active` is cleared, exactly that value is handed to the
display output, and the result is `ESP_OK`. -/
theorem set_brightness_immediate (ctx : display_context_t) (target : Nat)
    (animate timer_start_ok : Bool) (hi : ctx.initialized = true)
    (himm : animate = false ∨ ctx.fade_enabled = false ∨ ctx.fade_timer = false) :
    (display_power_set_brightness ctx target animate timer_start_ok).1 = ESP_OK ∧
    (display_power_set_brightness ctx target animate timer_start_ok).2.current_brightness
      = min (target % 256) 100 ∧
    (display_power_set_brightness ctx target animate timer_start_ok).2.target_brightness
      = min (target % 256) 100 ∧
    (display_power_set_brightness ctx target animate timer_start_ok).2.fade_active = false ∧
    (display_power_set_brightness ctx target animate timer_start_ok).2.backlight
      = ctx.backlight ++ [min (target % 256) 100] ∧
    (target < 256 → min (target % 256) 100 = min target 100) := by
  have hmin : (if target % 256 > 100 then 100 else target % 256) = min (target % 256) 100 := by
    split_ifs <;> omega
  have hcond : (!animate || !ctx.fade_enabled || !ctx.fade_timer) = true := by
    rcases himm with h | h | h <;> simp [h]
  unfold display_power_set_brightness
  simp only [hi, hmin, hcond, Bool.not_true, Bool.false_eq_true, if_false, if_true]
  refine ⟨by trivial, by trivial, by trivial, by trivial, by trivial, ?_⟩
  intro h
  rw [Nat.mod_eq_of_lt h]

/-- A fade 0 → 80 in progress, then `set_brightness(200, false)`: brightness and
target are 100 at once and the fade is over. -/
theorem set_brightness_immediate_witness :
    (display_power_set_brightness (fade_steps 3 (display_power_set_brightness
        (display_power_init display_ctx_zero 0 true true).2 80 true true).2)
        200 false true).2.current_brightness = 100 ∧
    (display_power_set_brightness (fade_steps 3 (display_power_set_brightness
        (display_power_init display_ctx_zero 0 true true).2 80 true true).2)
        200 false true).2.fade_active = false :=
  have h := set_brightness_immediate (fade_steps 3 (display_power_set_brightness
        (display_power_init display_ctx_zero 0 true true).2 80 true true).2)
        200 false true (by decide) (Or.inl rfl)
  ⟨h.2.1, h.2.2.2.1⟩

/-! ## Idle time -/

/-- C23, as stated, fails: with last activity at time 0, the idle time read at
4294967295 ms is 4294967295 and the idle time read one millisecond later is 0. -/
theorem idle_time_monotonic_counterexample :
    ¬ (power_manager_get_idle_time_ms (power_manager_init power_system_zero
        { dim_timeout_ms := 10000, off_timeout_ms := 20000, sleep_timeout_ms := 30000,
          dim_brightness := 2, user_brightness := 80, enable_fade := true,
          fade_duration_ms := 1000 } 0 ⟨true, true, true, true⟩).2.pm 4294967295000
        ≤ power_manager_get_idle_time_ms (power_manager_init power_system_zero
        { dim_timeout_ms := 10000, off_timeout_ms := 20000, sleep_timeout_ms := 30000,
          dim_brightness := 2, user_brightness := 80, enable_fade := true,
          fade_duration_ms := 1000 } 0 ⟨true, true, true, true⟩).2.pm 4294967296000) := by
  decide

/-- C23, amended. On an initialised manager, for clock readings
`last_activity ≤ now1 ≤ now2` with no reset between them (the same context is
read twice): whatever the span, the idle time at each reading is the whole
millisecond count `(now - last_activity) / 1000` reduced modulo `2^32`; and when
the idle span `(now2 - last_activity) / 1000` is below `2^32` milliseconds, the
idle time at `now1` is at most the idle time at `now2`, and each equals
`(now - last_activity) / 1000` (microseconds to whole milliseconds). -/
theorem idle_time_monotonic (ctx : power_context_t) (now1 now2 : Int)
    (hi : ctx.initialized = true) (h0 : ctx.last_activity_us ≤ now1) (h12 : now1 ≤ now2) :
    (power_manager_get_idle_time_ms ctx now1 : Int)
      = (now1 - ctx.last_activity_us) / 1000 % 4294967296 ∧
    (power_manager_get_idle_time_ms ctx now2 : Int)
      = (now2 - ctx.last_activity_us) / 1000 % 4294967296 ∧
    ((now2 - ctx.last_activity_us) / 1000 < 4294967296 →
      power_manager_get_idle_time_ms ctx now1 ≤ power_manager_get_idle_time_ms ctx now2 ∧
      (power_manager_get_idle_time_ms ctx now1 : Int) = (now1 - ctx.last_activity_us) / 1000 ∧
      (power_manager_get_idle_time_ms ctx now2 : Int) = (now2 - ctx.last_activity_us) / 1000) := by
  unfold power_manager_get_idle_time_ms to_u32
  simp only [hi, Bool.not_true, Bool.false_eq_true, if_false]
  rw [Int.tdiv_eq_ediv (by omega) (by omega), Int.tdiv_eq_ediv (by omega) (by omega)]
  refine ⟨by omega, by omega, fun hlt => ?_⟩
  omega

/-- Last activity at 0, readings at 10.5 s and 20.001 s: idle times 10500 ms and
20001 ms. -/
theorem idle_time_monotonic_witness :
    power_manager_get_idle_time_ms (power_manager_init power_system_zero
        { dim_timeout_ms := 10000, off_timeout_ms := 20000, sleep_timeout_ms := 30000,
          dim_brightness := 2, user_brightness := 80, enable_fade := true,
          fade_duration_ms := 1000 } 0 ⟨true, true, true, true⟩).2.pm 10500000
      ≤ power_manager_get_idle_time_ms (power_manager_init power_system_zero
        { dim_timeout_ms := 10000, off_timeout_ms := 20000, sleep_timeout_ms := 30000,
          dim_brightness := 2, user_brightness := 80, enable_fade := true,
          fade_duration_ms := 1000 } 0 ⟨true, true, true, true⟩).2.pm 20001000 ∧
    power_manager_get_idle_time_ms (power_manager_init power_system_zero
        { dim_timeout_ms := 10000, off_timeout_ms := 20000, sleep_timeout_ms := 30000,
          dim_brightness := 2, user_brightness := 80, enable_fade := true,
          fade_duration_ms := 1000 } 0 ⟨true, true, true, true⟩).2.pm 10500000 = 10500 ∧
    power_manager_get_idle_time_ms (power_manager_init power_system_zero
        { dim_timeout_ms := 10000, off_timeout_ms := 20000, sleep_timeout_ms := 30000,
          dim_brightness := 2, user_brightness := 80, enable_fade := true,
          fade_duration_ms := 1000 } 0 ⟨true, true, true, true⟩).2.pm 20001000 = 20001 :=
  have h := idle_time_monotonic (power_manager_init power_system_zero
        { dim_timeout_ms := 10000, off_timeout_ms := 20000, sleep_timeout_ms := 30000,
          dim_brightness := 2, user_brightness := 80, enable_fade := true,
          fade_duration_ms := 1000 } 0 ⟨true, true, true, true⟩).2.pm 10500000 20001000 (by decide) (by decide) (by decide)
  ⟨(h.2.2 (by decide)).1, by decide, by decide⟩

/-! ## Sleep -/

/-- C24 at the failing input. On an initialised manager
`power_manager_configure_light_sleep` returns `ESP_OK` whatever the arming calls
report, for instance when `esp_sleep_enable_uart_wakeup` fails with
`ESP_ERR_INVALID_ARG`; the four arming calls are made regardless. -/
theorem configure_light_sleep_ignores_arming_results :
    (∀ env : sleep_env,
      (power_manager_configure_light_sleep (power_manager_init power_system_zero
        { dim_timeout_ms := 10000, off_timeout_ms := 20000, sleep_timeout_ms := 30000,
          dim_brightness := 2, user_brightness := 80, enable_fade := true,
          fade_duration_ms := 1000 } 0 ⟨true, true, true, true⟩).2 env).1 = ESP_OK ∧
      (power_manager_configure_light_sleep (power_manager_init power_system_zero
        { dim_timeout_ms := 10000, off_timeout_ms := 20000, sleep_timeout_ms := 30000,
          dim_brightness := 2, user_brightness := 80, enable_fade := true,
          fade_duration_ms := 1000 } 0 ⟨true, true, true, true⟩).2 env).2.wake_arms
        = [wake_arm.timer_wakeup 100000, wake_arm.gpio_wakeup_enable 9 true,
           wake_arm.gpio_wakeup, wake_arm.uart_wakeup 1]) ∧
    (power_manager_configure_light_sleep (power_manager_init power_system_zero
        { dim_timeout_ms := 10000, off_timeout_ms := 20000, sleep_timeout_ms := 30000,
          dim_brightness := 2, user_brightness := 80, enable_fade := true,
          fade_duration_ms := 1000 } 0 ⟨true, true, true, true⟩).2
        { timer_wakeup_result := ESP_OK, gpio_wakeup_enable_result := ESP_OK,
          gpio_wakeup_result := ESP_OK, uart_wakeup_result := ESP_ERR_INVALID_ARG,
          light_sleep_result := ESP_OK }).1 = ESP_OK := by
  constructor
  · intro env
    constructor <;> rfl
  · rfl

/-- C25 at the failing input. `power_manager_enter_manual_sleep(duration_ms)` arms
the timer wake with `(duration_ms * 1000) mod 2^32` microseconds; for
`duration_ms = 4294968` that is 704 µs, not 4294968000 µs.  The product is exact
precisely for `duration_ms ≤ 4294967`. -/
theorem manual_sleep_duration_wraps :
    (∀ (duration_ms : Nat) (env : sleep_env) (now : Int) (lock_ok fade_start_ok : Bool),
      (power_manager_enter_manual_sleep (power_manager_init power_system_zero
        { dim_timeout_ms := 10000, off_timeout_ms := 20000, sleep_timeout_ms := 30000,
          dim_brightness := 2, user_brightness := 80, enable_fade := true,
          fade_duration_ms := 1000 } 0 ⟨true, true, true, true⟩).2 duration_ms env now lock_ok
          fade_start_ok).2.wake_arms
        = [wake_arm.timer_wakeup ((duration_ms % 4294967296 * 1000) % 4294967296),
           wake_arm.uart_wakeup 1]) ∧
    (4294968 * 1000) % 4294967296 = 704 ∧
    (∀ duration_ms : Nat, duration_ms < 4294967296 →
      ((duration_ms % 4294967296 * 1000) % 4294967296 = duration_ms * 1000
        ↔ duration_ms ≤ 4294967)) := by
  refine ⟨?_, by decide, ?_⟩
  · intro duration_ms env now lock_ok fade_start_ok
    unfold power_manager_enter_manual_sleep power_manager_reset_activity
    have hi : (power_manager_init power_system_zero
        { dim_timeout_ms := 10000, off_timeout_ms := 20000, sleep_timeout_ms := 30000,
          dim_brightness := 2, user_brightness := 80, enable_fade := true,
          fade_duration_ms := 1000 } 0 ⟨true, true, true, true⟩).2.pm.initialized = true := by decide
    have ha : (power_manager_init power_system_zero
        { dim_timeout_ms := 10000, off_timeout_ms := 20000, sleep_timeout_ms := 30000,
          dim_brightness := 2, user_brightness := 80, enable_fade := true,
          fade_duration_ms := 1000 } 0 ⟨true, true, true, true⟩).2.pm.current_state = POWER_STATE_ACTIVE := by decide
    have hw : (power_manager_init power_system_zero
        { dim_timeout_ms := 10000, off_timeout_ms := 20000, sleep_timeout_ms := 30000,
          dim_brightness := 2, user_brightness := 80, enable_fade := true,
          fade_duration_ms := 1000 } 0 ⟨true, true, true, true⟩).2.wake_arms = [] := by decide
    simp [hi, ha, hw]
  · intro d hd
    omega

/-- C26 at the failing input. After `power_manager_init` with
`user_brightness = 200`, `power_manager_get_user_brightness` returns 200 (the
display itself was initialised at 100), and it still does after an evaluator tick;
only `power_manager_set_user_brightness` stores a clamped value. -/
theorem user_brightness_unclamped_after_init :
    (power_manager_init power_system_zero
        { dim_timeout_ms := 10000, off_timeout_ms := 20000, sleep_timeout_ms := 30000,
          dim_brightness := 2, user_brightness := 200, enable_fade := true,
          fade_duration_ms := 1000 } 0 ⟨true, true, true, true⟩).1 = ESP_OK ∧
    power_manager_get_user_brightness (power_manager_init power_system_zero
        { dim_timeout_ms := 10000, off_timeout_ms := 20000, sleep_timeout_ms := 30000,
          dim_brightness := 2, user_brightness := 200, enable_fade := true,
          fade_duration_ms := 1000 } 0 ⟨true, true, true, true⟩).2.pm = 200 ∧
    (power_manager_init power_system_zero
        { dim_timeout_ms := 10000, off_timeout_ms := 20000, sleep_timeout_ms := 30000,
          dim_brightness := 2, user_brightness := 200, enable_fade := true,
          fade_duration_ms := 1000 } 0
        ⟨true, true, true, true⟩).2.display.current_brightness = 100 ∧
    power_manager_get_user_brightness (power_run (power_manager_init power_system_zero
        { dim_timeout_ms := 10000, off_timeout_ms := 20000, sleep_timeout_ms := 30000,
          dim_brightness := 2, user_brightness := 200, enable_fade := true,
          fade_duration_ms := 1000 } 0 ⟨true, true, true, true⟩).2
        [power_op.tick 1000000 true true]).pm = 200 := by
  decide

/-! ## Motion sensor: event flag and threshold byte -/

/-- C27. `bsp_qmi8658_check_wom_event` issues exactly one transfer, a read of the
secondary status register (`0x2F`), and changes no register; it returns true
exactly when that read succeeds and bit 2 of the byte read is set, hence false on
any bus error. -/
theorem check_wom_event_spec (bus : qmi_bus) :
    (bsp_qmi8658_check_wom_event bus).2.log = bus.log ++ [bus_txn.read 0x2F] ∧
    (bsp_qmi8658_check_wom_event bus).2.regs = bus.regs ∧
    ((bsp_qmi8658_check_wom_event bus).1 = true ↔
      bus.result bus.log.length = ESP_OK ∧
      sensor_value bus bus.log.length 0x2F &&& 0x04 ≠ 0) ∧
    (bus.result bus.log.length ≠ ESP_OK → (bsp_qmi8658_check_wom_event bus).1 = false) := by
  obtain ⟨r1, r2, r3, r4, r5, r6⟩ := reg_read_spec bus 0x2F
  unfold bsp_qmi8658_check_wom_event
  by_cases h : bus.result bus.log.length = ESP_OK
  · have hv := r6 h
    simp only [r1, h, beq_self_eq_true, if_true, hv]
    refine ⟨r2, r5, ?_, fun hne => absurd rfl hne⟩
    simp
  · have hb : (bus.result bus.log.length == ESP_OK) = false := by simpa using h
    simp only [r1, hb, Bool.false_eq_true, if_false]
    refine ⟨r2, r5, ?_, fun _ => trivial⟩
    simp [h]

/-- Bytes written to the low calibration register (`0x0B`) by a run. -/
theorem configure_wom_bytes_0B (bus : qmi_bus) (cfg : qmi8658_wom_config_t) :
    (∀ v, v ∈ bytes_written 0x0B ((bsp_qmi8658_configure_wom bus (some cfg)).2.log.drop bus.log.length) →
      v = cfg.threshold_mg % 256) ∧
    ((∀ i, i < 2 → bus.result (bus.log.length + i) = ESP_OK) →
      bytes_written 0x0B ((bsp_qmi8658_configure_wom bus (some cfg)).2.log.drop bus.log.length) = [cfg.threshold_mg % 256]) := by
  obtain ⟨m, h1, h5, hb, hreach⟩ := configure_wom_bytes bus cfg 0x0B (by decide) (by decide)
  unfold wom_setup_writes at hb
  generalize cfg.threshold_mg % 256 = x at hb ⊢
  constructor
  · intro v hvmem
    rw [hb] at hvmem
    interval_cases m <;> simp [bytes_written] at hvmem
    all_goals exact hvmem
  · intro hok
    have hm := hreach 2 (by omega) hok
    rw [hb]
    interval_cases m <;> simp [bytes_written]

/-- C30. Every byte `bsp_qmi8658_configure_wom` writes to the low calibration
register (`0x0B`) is `threshold_mg mod 256`, and that byte is written whenever the
first two transfers succeed.  It equals `threshold_mg` exactly when
`threshold_mg ≤ 255`; for `threshold_mg` from 256 to 500 it is
`threshold_mg - 256`. -/
theorem wom_threshold_truncated (bus : qmi_bus) (cfg : qmi8658_wom_config_t) :
    (∀ v, v ∈ bytes_written 0x0B ((bsp_qmi8658_configure_wom bus (some cfg)).2.log.drop bus.log.length) →
      v = cfg.threshold_mg % 256 ∧
      (v = cfg.threshold_mg ↔ cfg.threshold_mg ≤ 255) ∧
      (256 ≤ cfg.threshold_mg → cfg.threshold_mg ≤ 500 → v = cfg.threshold_mg - 256)) ∧
    ((∀ i, i < 2 → bus.result (bus.log.length + i) = ESP_OK) →
      bytes_written 0x0B ((bsp_qmi8658_configure_wom bus (some cfg)).2.log.drop bus.log.length) = [cfg.threshold_mg % 256]) := by
  obtain ⟨h1, h2⟩ := configure_wom_bytes_0B bus cfg
  refine ⟨?_, h2⟩
  intro v hv
  have := h1 v hv
  refine ⟨this, ?_, ?_⟩
  · omega
  · intro _ _
    omega

/-! ## Power state machine: no-op transitions and Sleep -/

/-- C28. A transition to the state the manager is already in, with the lock
obtained, returns `ESP_OK` and leaves the whole power subsystem exactly as it was
(states, display brightness and fade state, registry), with no
`display_power_set_brightness` call and no callback invoked; so does
`power_manager_force_state` on an initialised manager. -/
theorem same_state_transition_noop (s : power_system) (fade_start_ok : Bool) :
    transition_to_state s s.pm.current_state true fade_start_ok = (ESP_OK, s) ∧
    (s.pm.initialized = true →
      power_manager_force_state s s.pm.current_state true fade_start_ok = (ESP_OK, s)) := by
  have h : transition_to_state s s.pm.current_state true fade_start_ok = (ESP_OK, s) := by
    unfold transition_to_state
    simp
  refine ⟨h, ?_⟩
  intro hi
  unfold power_manager_force_state
  simp [hi, h]

/-- What any `transition_to_state` call leaves alone, and where it can end. -/
theorem transition_to_state_frame (s : power_system) (new_state : power_state_t)
    (lock_ok fade_start_ok : Bool) :
    (transition_to_state s new_state lock_ok fade_start_ok).2.pm.config = s.pm.config ∧
    ((transition_to_state s new_state lock_ok fade_start_ok).2.pm.current_state = new_state ∨
      (transition_to_state s new_state lock_ok fade_start_ok).2.pm.current_state
        = s.pm.current_state) := by
  unfold transition_to_state
  cases lock_ok
  · simp
  · by_cases h : s.pm.current_state = new_state
    · simp [h]
    · cases new_state <;> simp [h, call_display_power_set_brightness]

/-- The evaluator's target is never Sleep. -/
theorem evaluator_target_ne_sleep (idle off dim : Nat) :
    (if idle ≥ off then POWER_STATE_OFF
      else if idle ≥ dim then POWER_STATE_DIM else POWER_STATE_ACTIVE) ≠ POWER_STATE_SLEEP := by
  split_ifs <;> decide

theorem power_manager_reset_activity_frame (s : power_system) (source : wake_source_t)
    (now : Int) (lock_ok fade_start_ok : Bool) :
    (power_manager_reset_activity s source now lock_ok fade_start_ok).pm.config
      = s.pm.config ∧
    ((power_manager_reset_activity s source now lock_ok fade_start_ok).pm.current_state
        = POWER_STATE_ACTIVE ∨
      (power_manager_reset_activity s source now lock_ok fade_start_ok).pm.current_state
        = s.pm.current_state) := by
  unfold power_manager_reset_activity
  dsimp only
  split_ifs
  · exact ⟨rfl, Or.inr rfl⟩
  · exact transition_to_state_frame _ _ _ _
  · exact ⟨rfl, Or.inr rfl⟩

theorem power_timer_callback_frame (s : power_system) (now : Int)
    (lock_ok fade_start_ok : Bool) :
    (power_timer_callback s now lock_ok fade_start_ok).pm.config = s.pm.config ∧
    ((power_timer_callback s now lock_ok fade_start_ok).pm.current_state ≠ POWER_STATE_SLEEP ∨
      (power_timer_callback s now lock_ok fade_start_ok).pm.current_state
        = s.pm.current_state) := by
  unfold power_timer_callback
  dsimp only
  by_cases hi : s.pm.initialized = true
  · rw [if_neg (by simp [hi])]
    generalize hT : (if power_manager_get_idle_time_ms s.pm now ≥ s.pm.config.off_timeout_ms
        then POWER_STATE_OFF
      else if power_manager_get_idle_time_ms s.pm now ≥ s.pm.config.dim_timeout_ms then
        POWER_STATE_DIM
      else POWER_STATE_ACTIVE) = target
    have hT' : target ≠ POWER_STATE_SLEEP := by
      rw [← hT]
      exact evaluator_target_ne_sleep _ _ _
    obtain ⟨f1, f2⟩ := transition_to_state_frame s target lock_ok fade_start_ok
    by_cases hc : target = s.pm.current_state
    · rw [if_neg (by simp [hc])]
      exact ⟨rfl, Or.inr rfl⟩
    · rw [if_pos (bne_iff_ne.2 hc)]
      refine ⟨f1, ?_⟩
      rcases f2 with f2 | f2
      · left
        show (transition_to_state s target lock_ok fade_start_ok).2.pm.current_state ≠ _
        rw [f2]
        exact hT'
      · exact Or.inr f2
  · rw [if_pos (by simp [hi])]
    exact ⟨rfl, Or.inr rfl⟩

/-- No call other than a `power_manager_force_state(Sleep)` takes the manager into
Sleep, and none changes a stored user brightness that is at most 100 into one
above 100. -/
theorem power_apply_frame (s : power_system) (op : power_op) :
    ((power_apply s op).pm.current_state = POWER_STATE_SLEEP →
      s.pm.current_state = POWER_STATE_SLEEP ∨
      ∃ l f, op = power_op.force_state POWER_STATE_SLEEP l f) ∧
    (s.pm.config.user_brightness ≤ 100 →
      (power_apply s op).pm.config.user_brightness ≤ 100) := by
  cases op with
  | tick now lock_ok fade_start_ok =>
      obtain ⟨f1, f2⟩ := power_timer_callback_frame s now lock_ok fade_start_ok
      refine ⟨fun h => ?_, fun h => ?_⟩
      · rcases f2 with f2 | f2
        · exact absurd h f2
        · exact Or.inl (f2.symm.trans h)
      · show (power_timer_callback s now lock_ok fade_start_ok).pm.config.user_brightness ≤ 100
        rw [f1]
        exact h
  | reset_activity source now lock_ok fade_start_ok =>
      obtain ⟨f1, f2⟩ := power_manager_reset_activity_frame s source now lock_ok fade_start_ok
      refine ⟨fun h => ?_, fun h => ?_⟩
      · rcases f2 with f2 | f2
        · exact absurd (f2.symm.trans h) (by decide)
        · exact Or.inl (f2.symm.trans h)
      · show (power_manager_reset_activity s source now lock_ok
          fade_start_ok).pm.config.user_brightness ≤ 100
        rw [f1]
        exact h
  | set_user_brightness b fade_start_ok =>
      simp only [power_apply, power_manager_set_user_brightness,
        call_display_power_set_brightness]
      constructor
      · intro h
        left
        revert h
        split_ifs <;> exact id
      · intro h
        split_ifs <;> first | exact h | (dsimp only; omega)
  | register_state_callback cb lock_ok =>
      simp only [power_apply, power_manager_register_state_callback]
      constructor
      · intro h
        left
        revert h
        split_ifs <;> exact id
      · intro h
        split_ifs <;> exact h
  | force_state state lock_ok fade_start_ok =>
      simp only [power_apply, power_manager_force_state]
      split_ifs
      · exact ⟨fun h => Or.inl h, fun h => h⟩
      · obtain ⟨f1, f2⟩ := transition_to_state_frame s state lock_ok fade_start_ok
        refine ⟨fun h => ?_, fun h => ?_⟩
        · rcases f2 with f2 | f2
          · right
            exact ⟨lock_ok, fade_start_ok, by rw [← f2, h]⟩
          · exact Or.inl (f2.symm.trans h)
        · rw [f1]
          exact h
  | configure_light_sleep env =>
      simp only [power_apply, power_manager_configure_light_sleep,
        configure_sleep_wake_sources]
      split_ifs <;> exact ⟨fun h => Or.inl h, fun h => h⟩
  | enter_manual_sleep d env now lock_ok fade_start_ok =>
      simp only [power_apply, power_manager_enter_manual_sleep]
      split_ifs
      · exact ⟨fun h => Or.inl h, fun h => h⟩
      · dsimp only
        generalize hR : power_manager_reset_activity _ WAKE_SOURCE_TIMER now lock_ok
          fade_start_ok = R
        have hf := power_manager_reset_activity_frame
          { s with wake_arms := s.wake_arms ++
              [wake_arm.timer_wakeup (d % 4294967296 * 1000 % 4294967296)] ++
              [wake_arm.uart_wakeup 1] }
          WAKE_SOURCE_TIMER now lock_ok fade_start_ok
        rw [hR] at hf
        obtain ⟨f1, f2⟩ := hf
        refine ⟨fun h => ?_, fun h => ?_⟩
        · rcases f2 with f2 | f2
          · exact absurd (f2.symm.trans h) (by decide)
          · exact Or.inl (f2.symm.trans h)
        · rw [f1]
          exact h

theorem power_run_not_sleep (ops : List power_op) (s : power_system)
    (hs : s.pm.current_state ≠ POWER_STATE_SLEEP)
    (hops : ∀ op, op ∈ ops → ∀ l f, op ≠ power_op.force_state POWER_STATE_SLEEP l f) :
    (power_run s ops).pm.current_state ≠ POWER_STATE_SLEEP := by
  induction ops generalizing s with
  | nil => exact hs
  | cons op ops ih =>
      show (power_run (power_apply s op) ops).pm.current_state ≠ POWER_STATE_SLEEP
      apply ih
      · intro h
        rcases (power_apply_frame s op).1 h with h' | ⟨l, f, h'⟩
        · exact hs h'
        · exact hops op (List.mem_cons_self _ _) l f h'
      · intro op' hop'
        exact hops op' (List.mem_cons_of_mem _ hop')

/-- If the configuration given to `power_manager_init` has `user_brightness ≤ 100`
the stored user brightness stays at most 100 under every sequence of calls. -/
theorem power_run_user_brightness_le (ops : List power_op) (s : power_system)
    (hs : s.pm.config.user_brightness ≤ 100) :
    power_manager_get_user_brightness (power_run s ops).pm ≤ 100 := by
  induction ops generalizing s with
  | nil => exact hs
  | cons op ops ih => exact ih _ ((power_apply_frame s op).2 hs)

/-- The idle time seen after a forced state change is the one seen before. -/
theorem idle_time_after_transition (s : power_system) (new_state : power_state_t)
    (lock_ok fade_start_ok : Bool) (now : Int) :
    power_manager_get_idle_time_ms
        (transition_to_state s new_state lock_ok fade_start_ok).2.pm now
      = power_manager_get_idle_time_ms s.pm now := by
  obtain ⟨h1, h2⟩ := transition_to_state_clock s new_state lock_ok fade_start_ok
  unfold power_manager_get_idle_time_ms
  rw [h1, h2]

/-- C29. The evaluator never selects Sleep and does not preserve it: a tick never
takes the manager into Sleep; a tick that obtains the lock on an initialised
manager ends in the Active, Dim or Off state its idle time dictates, also right
after `power_manager_force_state(Sleep)`; the outcome does not depend on
`sleep_timeout_ms`; and from a state other than Sleep no sequence of calls without
a `power_manager_force_state(Sleep)` reaches Sleep. -/
theorem evaluator_never_selects_sleep :
    (∀ (s : power_system) (now : Int) (lock_ok fade_start_ok : Bool),
      (power_timer_callback s now lock_ok fade_start_ok).pm.current_state
          = POWER_STATE_SLEEP →
        s.pm.current_state = POWER_STATE_SLEEP) ∧
    (∀ (s : power_system) (now : Int) (fade_start_ok : Bool), s.pm.initialized = true →
      (power_timer_callback s now true fade_start_ok).pm.current_state = (if power_manager_get_idle_time_ms s.pm now ≥ s.pm.config.off_timeout_ms then
          POWER_STATE_OFF
        else if power_manager_get_idle_time_ms s.pm now ≥ s.pm.config.dim_timeout_ms then
          POWER_STATE_DIM
        else POWER_STATE_ACTIVE) ∧
      (power_timer_callback s now true fade_start_ok).pm.current_state
        ≠ POWER_STATE_SLEEP) ∧
    (∀ (s : power_system) (now : Int) (f1 f2 : Bool), s.pm.initialized = true →
      (power_manager_force_state s POWER_STATE_SLEEP true f1).2.pm.current_state
        = POWER_STATE_SLEEP ∧
      (power_timer_callback (power_manager_force_state s POWER_STATE_SLEEP true f1).2
          now true f2).pm.current_state = (if power_manager_get_idle_time_ms s.pm now ≥ s.pm.config.off_timeout_ms then
          POWER_STATE_OFF
        else if power_manager_get_idle_time_ms s.pm now ≥ s.pm.config.dim_timeout_ms then
          POWER_STATE_DIM
        else POWER_STATE_ACTIVE)) ∧
    (∀ (s : power_system) (t : Nat) (now : Int) (lock_ok fade_start_ok : Bool),
      (power_timer_callback
          { s with pm := { s.pm with config := { s.pm.config with sleep_timeout_ms := t } } }
          now lock_ok fade_start_ok).pm.current_state
        = (power_timer_callback s now lock_ok fade_start_ok).pm.current_state) ∧
    (∀ (s : power_system) (ops : List power_op),
      s.pm.current_state ≠ POWER_STATE_SLEEP →
      (∀ op, op ∈ ops → ∀ l f, op ≠ power_op.force_state POWER_STATE_SLEEP l f) →
      (power_run s ops).pm.current_state ≠ POWER_STATE_SLEEP) := by
  refine ⟨?_, ?_, ?_, ?_, ?_⟩
  · intro s now lock_ok fade_start_ok h
    rcases (power_timer_callback_frame s now lock_ok fade_start_ok).2 with f | f
    · exact absurd h f
    · exact f.symm.trans h
  · intro s now fade_start_ok hi
    have h := power_timer_callback_locked s now fade_start_ok hi
    refine ⟨h, ?_⟩
    rw [h]
    exact evaluator_target_ne_sleep _ _ _
  · intro s now f1 f2 hi
    have hforce : power_manager_force_state s POWER_STATE_SLEEP true f1
        = transition_to_state s POWER_STATE_SLEEP true f1 := by
      unfold power_manager_force_state
      simp [hi]
    obtain ⟨t1, -, t3⟩ := transition_to_state_locked s POWER_STATE_SLEEP f1
    obtain ⟨c1, -⟩ := transition_to_state_frame s POWER_STATE_SLEEP true f1
    rw [hforce]
    refine ⟨t1, ?_⟩
    rw [power_timer_callback_locked _ now f2 (by rw [t3]; exact hi),
      idle_time_after_transition, c1]
  · intro s t now lock_ok fade_start_ok
    by_cases hi : s.pm.initialized = true
    · cases lock_ok
      · rw [(power_timer_callback_unlocked _ now fade_start_ok).1,
          (power_timer_callback_unlocked s now fade_start_ok).1]
      · have e1 := power_timer_callback_locked
          { s with pm := { s.pm with config := { s.pm.config with sleep_timeout_ms := t } } }
          now fade_start_ok hi
        have e2 := power_timer_callback_locked s now fade_start_ok hi
        exact e1.trans e2.symm
    · unfold power_timer_callback
      simp [hi]
  · intro s ops hs hops
    exact power_run_not_sleep ops s hs hops

end C6Touch
